import Mathlib

/-!
Verification of the vector-math library (Vector2 / Vector3 / Vector4).

JavaScript numbers are modelled by `JSNum`: NaN, the two signed infinities,
and finite values carried as exact real numbers.  Arithmetic on the special
values follows IEEE-754 double semantics (0/0 = NaN, x/0 = ±Infinity for
x ≠ 0, Infinity - Infinity = NaN, Infinity * 0 = NaN, comparisons with NaN
are false, ...); rounding of finite results and the sign of zero are not
modelled (finite arithmetic is exact and zero is unsigned).

The classes are embedded shallowly: a TypeScript `new Vector2(a, b)` call
becomes `Vector2.make (some a) (some b)`, reproducing the source
constructor's truthiness check (`if (x) this.x = x`), under which an
argument that is 0 or NaN leaves the field at its default (0 for x/y/z,
1 for Vector4's w).  Static operations build their result through `make`;
instance mutators assign the fields directly.
-/

noncomputable section
open scoped Classical

/-- A JavaScript number: NaN, an infinity (`inf true` = +Infinity,
`inf false` = -Infinity), or a finite value carried as an exact real. -/
inductive JSNum where
  | nan : JSNum
  | inf : Bool → JSNum
  | fin : ℝ → JSNum

namespace JSNum

/-- IEEE negation. -/
def jsNeg : JSNum → JSNum
  | nan => nan
  | inf s => inf (!s)
  | fin a => fin (-a)

/-- IEEE addition (special values; finite part exact). -/
def jsAdd : JSNum → JSNum → JSNum
  | nan, _ => nan
  | _, nan => nan
  | inf s, inf t => if s = t then inf s else nan
  | inf s, fin _ => inf s
  | fin _, inf t => inf t
  | fin a, fin b => fin (a + b)

/-- IEEE subtraction: `a - b` behaves exactly as `a + (-b)`. -/
def jsSub (a b : JSNum) : JSNum := jsAdd a (jsNeg b)

/-- IEEE multiplication (special values; finite part exact). -/
def jsMul : JSNum → JSNum → JSNum
  | nan, _ => nan
  | _, nan => nan
  | inf s, inf t => inf (s == t)
  | inf s, fin b => if b = 0 then nan else if 0 < b then inf s else inf (!s)
  | fin a, inf t => if a = 0 then nan else if 0 < a then inf t else inf (!t)
  | fin a, fin b => fin (a * b)

/-- IEEE division (special values; finite part exact; zero is unsigned, so
`x / 0` takes the sign of `x`, matching division by JavaScript's `+0`). -/
def jsDiv : JSNum → JSNum → JSNum
  | nan, _ => nan
  | _, nan => nan
  | inf _, inf _ => nan
  | inf s, fin b => if 0 ≤ b then inf s else inf (!s)
  | fin _, inf _ => fin 0
  | fin a, fin b =>
      if b = 0 then (if a = 0 then nan else if 0 < a then inf true else inf false)
      else fin (a / b)

/-- `Math.sqrt`: NaN on NaN and on negative arguments, +Infinity on
+Infinity, exact real square root on nonnegative finite values. -/
def jsSqrt : JSNum → JSNum
  | nan => nan
  | inf s => if s then inf true else nan
  | fin a => if a < 0 then nan else fin (Real.sqrt a)

/-- The JavaScript `<` comparison: false whenever either side is NaN. -/
def jsLt : JSNum → JSNum → Prop
  | nan, _ => False
  | _, nan => False
  | inf s, inf t => s = false ∧ t = true
  | inf s, fin _ => s = false
  | fin _, inf t => t = true
  | fin a, fin b => a < b

/-- The JavaScript `<=` comparison: false whenever either side is NaN. -/
def jsLe (a b : JSNum) : Prop := jsLt a b ∨ (a ≠ nan ∧ a = b)

/-- JavaScript truthiness of a number: 0 and NaN are falsy. -/
def truthy : JSNum → Prop
  | nan => False
  | inf _ => True
  | fin a => a ≠ 0

/-- One field assignment of the constructor: `if (x) this.x = x` keeps the
field default `d` unless the supplied value is truthy. -/
def assign (d : JSNum) (v : JSNum) : JSNum := if truthy v then v else d

/-- A possibly-omitted constructor argument (`x?: number`). -/
def defaultTo (d : JSNum) : Option JSNum → JSNum
  | none => d
  | some v => assign d v

end JSNum

open JSNum

namespace VecLib

/-- The `Vector2` class: two public numeric fields. -/
@[ext] structure Vector2 where
  x : JSNum
  y : JSNum

namespace Vector2

/-- `new Vector2(x?, y?)`: both fields default to 0, then each supplied
argument is assigned only if truthy (`if (x) this.x = x`). -/
def make (ox oy : Option JSNum) : Vector2 :=
  ⟨defaultTo (fin 0) ox, defaultTo (fin 0) oy⟩

/-- `Vector2.right`. -/
def right : Vector2 := make (some (fin 1)) (some (fin 0))

/-- `Vector2.left`. -/
def left : Vector2 := make (some (fin (-1))) (some (fin 0))

/-- `Vector2.up`. -/
def up : Vector2 := make (some (fin 0)) (some (fin 1))

/-- `Vector2.down`. -/
def down : Vector2 := make (some (fin 0)) (some (fin (-1)))

/-- `Vector2.one`. -/
def one : Vector2 := make (some (fin 1)) (some (fin 1))

/-- `Vector2.zero`. -/
def zero : Vector2 := make (some (fin 0)) (some (fin 0))

/-- `Vector2.negativeInfinity`. -/
def negativeInfinity : Vector2 := make (some (inf false)) (some (inf false))

/-- `Vector2.positiveInfinity`. -/
def positiveInfinity : Vector2 := make (some (inf true)) (some (inf true))

/-- `get magnitude()`: `Math.sqrt(this.x * this.x + this.y * this.y)`. -/
def magnitude (v : Vector2) : JSNum :=
  jsSqrt (jsAdd (jsMul v.x v.x) (jsMul v.y v.y))

/-- `get sqrMagnitude()`: the source computes `Math.sqrt(this.magnitude)`. -/
def sqrMagnitude (v : Vector2) : JSNum := jsSqrt v.magnitude

/-- `get normalized()`: components divided by the magnitude when it is
positive, else `Vector2.zero`. -/
def normalized (v : Vector2) : Vector2 :=
  if jsLt (fin 0) v.magnitude then
    make (some (jsDiv v.x v.magnitude)) (some (jsDiv v.y v.magnitude))
  else zero

/-- Static `Vector2.Add(a, b)`; `Sum.inl` is the `typeof b === "number"` branch. -/
def Add (a : Vector2) : JSNum ⊕ Vector2 → Vector2
  | Sum.inl n => make (some (jsAdd a.x n)) (some (jsAdd a.y n))
  | Sum.inr b => make (some (jsAdd a.x b.x)) (some (jsAdd a.y b.y))

/-- Static `Vector2.Subtract(a, b)`. -/
def Subtract (a : Vector2) : JSNum ⊕ Vector2 → Vector2
  | Sum.inl n => make (some (jsSub a.x n)) (some (jsSub a.y n))
  | Sum.inr b => make (some (jsSub a.x b.x)) (some (jsSub a.y b.y))

/-- Static `Vector2.Multiply(a, b)`. -/
def Multiply (a : Vector2) : JSNum ⊕ Vector2 → Vector2
  | Sum.inl n => make (some (jsMul a.x n)) (some (jsMul a.y n))
  | Sum.inr b => make (some (jsMul a.x b.x)) (some (jsMul a.y b.y))

/-- Static `Vector2.Divide(a, b)`. -/
def Divide (a : Vector2) : JSNum ⊕ Vector2 → Vector2
  | Sum.inl n => make (some (jsDiv a.x n)) (some (jsDiv a.y n))
  | Sum.inr b => make (some (jsDiv a.x b.x)) (some (jsDiv a.y b.y))

/-- `Vector2.Dot(lhs, rhs)`. -/
def Dot (lhs rhs : Vector2) : JSNum :=
  jsAdd (jsMul lhs.x rhs.x) (jsMul lhs.y rhs.y)

/-- `Vector2.Cross(lhs, rhs)`: `new Vector2(lhs.x * rhs.y - rhs.x * lhs.y)`,
the second constructor argument being omitted. -/
def Cross (lhs rhs : Vector2) : Vector2 :=
  make (some (jsSub (jsMul lhs.x rhs.y) (jsMul rhs.x lhs.y))) none

/-- `Vector2.Distance(a, b)`: `Vector2.Subtract(a, b).magnitude`. -/
def Distance (a b : Vector2) : JSNum := (Subtract a (Sum.inr b)).magnitude

/-- Private `Vector2.DoLerp(a, b, t)`: `Add(a, Multiply(Subtract(b, a), t))`. -/
def DoLerp (a b : Vector2) (t : JSNum) : Vector2 :=
  Add a (Sum.inr (Multiply (Subtract b (Sum.inr a)) (Sum.inl t)))

/-- `Vector2.Lerp(a, b, t)`: returns `a` when `t < 0`, `b` when `t > 1`,
otherwise `DoLerp(a, b, t)`. -/
def Lerp (a b : Vector2) (t : JSNum) : Vector2 :=
  if jsLt t (fin 0) then a
  else if jsLt (fin 1) t then b
  else DoLerp a b t

/-- `Vector2.LerpUnclamped(a, b, t)`. -/
def LerpUnclamped (a b : Vector2) (t : JSNum) : Vector2 := DoLerp a b t

/-- `Vector2.ClampMagnitude(vector, maxLength)`: multiplier is
`maxLength / mag` when `mag > maxLength`, else 1. -/
def ClampMagnitude (v : Vector2) (maxLength : JSNum) : Vector2 :=
  make (some (jsMul v.x (if jsLt maxLength v.magnitude then jsDiv maxLength v.magnitude else fin 1)))
       (some (jsMul v.y (if jsLt maxLength v.magnitude then jsDiv maxLength v.magnitude else fin 1)))

/-- Static `Vector2.Magnitude(vector)`. -/
def Magnitude (v : Vector2) : JSNum := v.magnitude

/-- `Vector2.Max(lhs, rhs)`: `lhs.x >= rhs.x ? lhs.x : rhs.x`, per component. -/
def Max (lhs rhs : Vector2) : Vector2 :=
  make (some (if jsLe rhs.x lhs.x then lhs.x else rhs.x))
       (some (if jsLe rhs.y lhs.y then lhs.y else rhs.y))

/-- `Vector2.Min(lhs, rhs)`: `lhs.x <= rhs.x ? lhs.x : rhs.x`, per component. -/
def Min (lhs rhs : Vector2) : Vector2 :=
  make (some (if jsLe lhs.x rhs.x then lhs.x else rhs.x))
       (some (if jsLe lhs.y rhs.y then lhs.y else rhs.y))

/-- `Vector2.MoveTowards(current, target, maxDistanceDelta)`. -/
def MoveTowards (current target : Vector2) (maxDistanceDelta : JSNum) : Vector2 :=
  Lerp current target (jsDiv maxDistanceDelta (Distance target current))

/-- Instance method `Add`: mutates the receiver by direct field assignment;
modelled as returning the updated receiver. -/
def AddI (v : Vector2) : JSNum ⊕ Vector2 → Vector2
  | Sum.inl n => ⟨jsAdd v.x n, jsAdd v.y n⟩
  | Sum.inr r => ⟨jsAdd v.x r.x, jsAdd v.y r.y⟩

/-- Instance method `Subtract` (direct field assignment). -/
def SubtractI (v : Vector2) : JSNum ⊕ Vector2 → Vector2
  | Sum.inl n => ⟨jsSub v.x n, jsSub v.y n⟩
  | Sum.inr r => ⟨jsSub v.x r.x, jsSub v.y r.y⟩

/-- Instance method `Multiply` (direct field assignment). -/
def MultiplyI (v : Vector2) : JSNum ⊕ Vector2 → Vector2
  | Sum.inl n => ⟨jsMul v.x n, jsMul v.y n⟩
  | Sum.inr r => ⟨jsMul v.x r.x, jsMul v.y r.y⟩

/-- Instance method `Divide` (direct field assignment). -/
def DivideI (v : Vector2) : JSNum ⊕ Vector2 → Vector2
  | Sum.inl n => ⟨jsDiv v.x n, jsDiv v.y n⟩
  | Sum.inr r => ⟨jsDiv v.x r.x, jsDiv v.y r.y⟩

end Vector2

/-- The `Vector3` class: three public numeric fields. -/
@[ext] structure Vector3 where
  x : JSNum
  y : JSNum
  z : JSNum

namespace Vector3

/-- `new Vector3(x?, y?, z?)`: fields default to 0, truthy assignment. -/
def make (ox oy oz : Option JSNum) : Vector3 :=
  ⟨defaultTo (fin 0) ox, defaultTo (fin 0) oy, defaultTo (fin 0) oz⟩

/-- `Vector3.zero`. -/
def zero : Vector3 := make (some (fin 0)) (some (fin 0)) (some (fin 0))

/-- `Vector3.one`. -/
def one : Vector3 := make (some (fin 1)) (some (fin 1)) (some (fin 1))

/-- `get magnitude()`. -/
def magnitude (v : Vector3) : JSNum :=
  jsSqrt (jsAdd (jsAdd (jsMul v.x v.x) (jsMul v.y v.y)) (jsMul v.z v.z))

/-- `get sqrMagnitude()`: `Math.sqrt(this.magnitude)`. -/
def sqrMagnitude (v : Vector3) : JSNum := jsSqrt v.magnitude

/-- `get normalized()`. -/
def normalized (v : Vector3) : Vector3 :=
  if jsLt (fin 0) v.magnitude then
    make (some (jsDiv v.x v.magnitude)) (some (jsDiv v.y v.magnitude))
         (some (jsDiv v.z v.magnitude))
  else zero

/-- Static `Vector3.Add(a, b)`. -/
def Add (a : Vector3) : JSNum ⊕ Vector3 → Vector3
  | Sum.inl n => make (some (jsAdd a.x n)) (some (jsAdd a.y n)) (some (jsAdd a.z n))
  | Sum.inr b => make (some (jsAdd a.x b.x)) (some (jsAdd a.y b.y)) (some (jsAdd a.z b.z))

/-- Static `Vector3.Subtract(a, b)`. -/
def Subtract (a : Vector3) : JSNum ⊕ Vector3 → Vector3
  | Sum.inl n => make (some (jsSub a.x n)) (some (jsSub a.y n)) (some (jsSub a.z n))
  | Sum.inr b => make (some (jsSub a.x b.x)) (some (jsSub a.y b.y)) (some (jsSub a.z b.z))

/-- Static `Vector3.Multiply(a, b)`. -/
def Multiply (a : Vector3) : JSNum ⊕ Vector3 → Vector3
  | Sum.inl n => make (some (jsMul a.x n)) (some (jsMul a.y n)) (some (jsMul a.z n))
  | Sum.inr b => make (some (jsMul a.x b.x)) (some (jsMul a.y b.y)) (some (jsMul a.z b.z))

/-- Static `Vector3.Divide(a, b)`. -/
def Divide (a : Vector3) : JSNum ⊕ Vector3 → Vector3
  | Sum.inl n => make (some (jsDiv a.x n)) (some (jsDiv a.y n)) (some (jsDiv a.z n))
  | Sum.inr b => make (some (jsDiv a.x b.x)) (some (jsDiv a.y b.y)) (some (jsDiv a.z b.z))

/-- `Vector3.Dot(lhs, rhs)`. -/
def Dot (lhs rhs : Vector3) : JSNum :=
  jsAdd (jsAdd (jsMul lhs.x rhs.x) (jsMul lhs.y rhs.y)) (jsMul lhs.z rhs.z)

/-- `Vector3.Cross(lhs, rhs)`: the standard right-handed 3D cross product,
built through the constructor. -/
def Cross (lhs rhs : Vector3) : Vector3 :=
  make (some (jsSub (jsMul lhs.y rhs.z) (jsMul lhs.z rhs.y)))
       (some (jsSub (jsMul lhs.z rhs.x) (jsMul lhs.x rhs.z)))
       (some (jsSub (jsMul lhs.x rhs.y) (jsMul lhs.y rhs.x)))

/-- `Vector3.Distance(a, b)`. -/
def Distance (a b : Vector3) : JSNum := (Subtract a (Sum.inr b)).magnitude

/-- Private `Vector3.DoLerp(a, b, t)`. -/
def DoLerp (a b : Vector3) (t : JSNum) : Vector3 :=
  Add a (Sum.inr (Multiply (Subtract b (Sum.inr a)) (Sum.inl t)))

/-- `Vector3.Lerp(a, b, t)`. -/
def Lerp (a b : Vector3) (t : JSNum) : Vector3 :=
  if jsLt t (fin 0) then a
  else if jsLt (fin 1) t then b
  else DoLerp a b t

/-- `Vector3.LerpUnclamped(a, b, t)`. -/
def LerpUnclamped (a b : Vector3) (t : JSNum) : Vector3 := DoLerp a b t

/-- `Vector3.ClampMagnitude(vector, maxLength)`. -/
def ClampMagnitude (v : Vector3) (maxLength : JSNum) : Vector3 :=
  make (some (jsMul v.x (if jsLt maxLength v.magnitude then jsDiv maxLength v.magnitude else fin 1)))
       (some (jsMul v.y (if jsLt maxLength v.magnitude then jsDiv maxLength v.magnitude else fin 1)))
       (some (jsMul v.z (if jsLt maxLength v.magnitude then jsDiv maxLength v.magnitude else fin 1)))

/-- `Vector3.MoveTowards(current, target, maxDistanceDelta)`. -/
def MoveTowards (current target : Vector3) (maxDistanceDelta : JSNum) : Vector3 :=
  Lerp current target (jsDiv maxDistanceDelta (Distance target current))

/-- Componentwise IEEE negation of a `Vector3` (the `-Cross(b, a)` of the
anticommutativity property). -/
def compNeg (v : Vector3) : Vector3 := ⟨jsNeg v.x, jsNeg v.y, jsNeg v.z⟩

end Vector3

/-- The `Vector4` class: four public numeric fields; `w` defaults to 1. -/
@[ext] structure Vector4 where
  x : JSNum
  y : JSNum
  z : JSNum
  w : JSNum

namespace Vector4

/-- `new Vector4(x?, y?, z?, w?)`: `x`, `y`, `z` default to 0 and `w`
defaults to 1, each supplied argument assigned only if truthy. -/
def make (ox oy oz ow : Option JSNum) : Vector4 :=
  ⟨defaultTo (fin 0) ox, defaultTo (fin 0) oy, defaultTo (fin 0) oz,
   defaultTo (fin 1) ow⟩

/-- `Vector4.zero`: `new Vector4(0, 0, 0, 0)`. -/
def zero : Vector4 := make (some (fin 0)) (some (fin 0)) (some (fin 0)) (some (fin 0))

/-- `Vector4.one`: `new Vector4(1, 1, 1, 1)`. -/
def one : Vector4 := make (some (fin 1)) (some (fin 1)) (some (fin 1)) (some (fin 1))

/-- `get magnitude()`. -/
def magnitude (v : Vector4) : JSNum :=
  jsSqrt (jsAdd (jsAdd (jsAdd (jsMul v.x v.x) (jsMul v.y v.y)) (jsMul v.z v.z))
    (jsMul v.w v.w))

/-- `get sqrMagnitude()`: `Math.sqrt(this.magnitude)`. -/
def sqrMagnitude (v : Vector4) : JSNum := jsSqrt v.magnitude

/-- `get normalized()`. -/
def normalized (v : Vector4) : Vector4 :=
  if jsLt (fin 0) v.magnitude then
    make (some (jsDiv v.x v.magnitude)) (some (jsDiv v.y v.magnitude))
         (some (jsDiv v.z v.magnitude)) (some (jsDiv v.w v.magnitude))
  else zero

/-- Static `Vector4.Add(a, b)`. -/
def Add (a : Vector4) : JSNum ⊕ Vector4 → Vector4
  | Sum.inl n =>
      make (some (jsAdd a.x n)) (some (jsAdd a.y n)) (some (jsAdd a.z n)) (some (jsAdd a.w n))
  | Sum.inr b =>
      make (some (jsAdd a.x b.x)) (some (jsAdd a.y b.y)) (some (jsAdd a.z b.z))
           (some (jsAdd a.w b.w))

/-- Static `Vector4.Subtract(a, b)`. -/
def Subtract (a : Vector4) : JSNum ⊕ Vector4 → Vector4
  | Sum.inl n =>
      make (some (jsSub a.x n)) (some (jsSub a.y n)) (some (jsSub a.z n)) (some (jsSub a.w n))
  | Sum.inr b =>
      make (some (jsSub a.x b.x)) (some (jsSub a.y b.y)) (some (jsSub a.z b.z))
           (some (jsSub a.w b.w))

/-- Static `Vector4.Multiply(a, b)`. -/
def Multiply (a : Vector4) : JSNum ⊕ Vector4 → Vector4
  | Sum.inl n =>
      make (some (jsMul a.x n)) (some (jsMul a.y n)) (some (jsMul a.z n)) (some (jsMul a.w n))
  | Sum.inr b =>
      make (some (jsMul a.x b.x)) (some (jsMul a.y b.y)) (some (jsMul a.z b.z))
           (some (jsMul a.w b.w))

/-- Static `Vector4.Divide(a, b)`. -/
def Divide (a : Vector4) : JSNum ⊕ Vector4 → Vector4
  | Sum.inl n =>
      make (some (jsDiv a.x n)) (some (jsDiv a.y n)) (some (jsDiv a.z n)) (some (jsDiv a.w n))
  | Sum.inr b =>
      make (some (jsDiv a.x b.x)) (some (jsDiv a.y b.y)) (some (jsDiv a.z b.z))
           (some (jsDiv a.w b.w))

/-- `Vector4.Dot(lhs, rhs)`. -/
def Dot (lhs rhs : Vector4) : JSNum :=
  jsAdd (jsAdd (jsAdd (jsMul lhs.x rhs.x) (jsMul lhs.y rhs.y)) (jsMul lhs.z rhs.z))
    (jsMul lhs.w rhs.w)

/-- `Vector4.Distance(a, b)`. -/
def Distance (a b : Vector4) : JSNum := (Subtract a (Sum.inr b)).magnitude

/-- Private `Vector4.DoLerp(a, b, t)`. -/
def DoLerp (a b : Vector4) (t : JSNum) : Vector4 :=
  Add a (Sum.inr (Multiply (Subtract b (Sum.inr a)) (Sum.inl t)))

/-- `Vector4.Lerp(a, b, t)`. -/
def Lerp (a b : Vector4) (t : JSNum) : Vector4 :=
  if jsLt t (fin 0) then a
  else if jsLt (fin 1) t then b
  else DoLerp a b t

/-- `Vector4.LerpUnclamped(a, b, t)`. -/
def LerpUnclamped (a b : Vector4) (t : JSNum) : Vector4 := DoLerp a b t

/-- `Vector4.ClampMagnitude(vector, maxLength)`. -/
def ClampMagnitude (v : Vector4) (maxLength : JSNum) : Vector4 :=
  make (some (jsMul v.x (if jsLt maxLength v.magnitude then jsDiv maxLength v.magnitude else fin 1)))
       (some (jsMul v.y (if jsLt maxLength v.magnitude then jsDiv maxLength v.magnitude else fin 1)))
       (some (jsMul v.z (if jsLt maxLength v.magnitude then jsDiv maxLength v.magnitude else fin 1)))
       (some (jsMul v.w (if jsLt maxLength v.magnitude then jsDiv maxLength v.magnitude else fin 1)))

/-- `Vector4.MoveTowards(current, target, maxDistanceDelta)`. -/
def MoveTowards (current target : Vector4) (maxDistanceDelta : JSNum) : Vector4 :=
  Lerp current target (jsDiv maxDistanceDelta (Distance target current))

/-- Instance method `Multiply` (direct field assignment). -/
def MultiplyI (v : Vector4) : JSNum ⊕ Vector4 → Vector4
  | Sum.inl n => ⟨jsMul v.x n, jsMul v.y n, jsMul v.z n, jsMul v.w n⟩
  | Sum.inr r => ⟨jsMul v.x r.x, jsMul v.y r.y, jsMul v.z r.z, jsMul v.w r.w⟩

end Vector4

end VecLib

namespace JSNum

@[simp] theorem jsNeg_nan : jsNeg nan = nan := rfl
@[simp] theorem jsNeg_inf (s : Bool) : jsNeg (inf s) = inf (!s) := rfl
@[simp] theorem jsNeg_fin (a : ℝ) : jsNeg (fin a) = fin (-a) := rfl

@[simp] theorem jsAdd_nan_left (b : JSNum) : jsAdd nan b = nan := by
  cases b <;> rfl
@[simp] theorem jsAdd_nan_right (a : JSNum) : jsAdd a nan = nan := by
  cases a <;> rfl
@[simp] theorem jsAdd_fin_fin (a b : ℝ) : jsAdd (fin a) (fin b) = fin (a + b) := rfl
@[simp] theorem jsAdd_inf_fin (s : Bool) (b : ℝ) : jsAdd (inf s) (fin b) = inf s := rfl
@[simp] theorem jsAdd_fin_inf (a : ℝ) (t : Bool) : jsAdd (fin a) (inf t) = inf t := rfl
@[simp] theorem jsAdd_inf_inf (s t : Bool) :
    jsAdd (inf s) (inf t) = if s = t then inf s else nan := rfl

@[simp] theorem jsMul_nan_left (b : JSNum) : jsMul nan b = nan := by
  cases b <;> rfl
@[simp] theorem jsMul_nan_right (a : JSNum) : jsMul a nan = nan := by
  cases a <;> rfl
@[simp] theorem jsMul_fin_fin (a b : ℝ) : jsMul (fin a) (fin b) = fin (a * b) := rfl
@[simp] theorem jsMul_inf_inf (s t : Bool) : jsMul (inf s) (inf t) = inf (s == t) := rfl
@[simp] theorem jsMul_inf_fin (s : Bool) (b : ℝ) :
    jsMul (inf s) (fin b) = if b = 0 then nan else if 0 < b then inf s else inf (!s) := rfl
@[simp] theorem jsMul_fin_inf (a : ℝ) (t : Bool) :
    jsMul (fin a) (inf t) = if a = 0 then nan else if 0 < a then inf t else inf (!t) := rfl

@[simp] theorem jsDiv_nan_left (b : JSNum) : jsDiv nan b = nan := by
  cases b <;> rfl
@[simp] theorem jsDiv_nan_right (a : JSNum) : jsDiv a nan = nan := by
  cases a <;> rfl
@[simp] theorem jsDiv_inf_inf (s t : Bool) : jsDiv (inf s) (inf t) = nan := rfl
@[simp] theorem jsDiv_inf_fin (s : Bool) (b : ℝ) :
    jsDiv (inf s) (fin b) = if 0 ≤ b then inf s else inf (!s) := rfl
@[simp] theorem jsDiv_fin_inf (a : ℝ) (t : Bool) : jsDiv (fin a) (inf t) = fin 0 := rfl
@[simp] theorem jsDiv_fin_fin (a b : ℝ) :
    jsDiv (fin a) (fin b) =
      if b = 0 then (if a = 0 then nan else if 0 < a then inf true else inf false)
      else fin (a / b) := rfl

@[simp] theorem jsSqrt_nan : jsSqrt nan = nan := rfl
@[simp] theorem jsSqrt_inf (s : Bool) : jsSqrt (inf s) = if s then inf true else nan := rfl
@[simp] theorem jsSqrt_fin (a : ℝ) :
    jsSqrt (fin a) = if a < 0 then nan else fin (Real.sqrt a) := rfl

@[simp] theorem jsLt_nan_left (b : JSNum) : ¬ jsLt nan b := by
  cases b <;> exact fun h => h.elim
@[simp] theorem jsLt_nan_right (a : JSNum) : ¬ jsLt a nan := by
  cases a <;> exact fun h => h.elim
@[simp] theorem jsLt_fin_fin (a b : ℝ) : jsLt (fin a) (fin b) ↔ a < b := Iff.rfl
@[simp] theorem jsLt_inf_inf (s t : Bool) : jsLt (inf s) (inf t) ↔ s = false ∧ t = true := Iff.rfl
@[simp] theorem jsLt_inf_fin (s : Bool) (b : ℝ) : jsLt (inf s) (fin b) ↔ s = false := Iff.rfl
@[simp] theorem jsLt_fin_inf (a : ℝ) (t : Bool) : jsLt (fin a) (inf t) ↔ t = true := Iff.rfl

@[simp] theorem truthy_nan : ¬ truthy nan := fun h => h.elim
@[simp] theorem truthy_inf (s : Bool) : truthy (inf s) := trivial
@[simp] theorem truthy_fin (a : ℝ) : truthy (fin a) ↔ a ≠ 0 := Iff.rfl

@[simp] theorem assign_nan (d : JSNum) : assign d nan = d := by
  simp [assign]
@[simp] theorem assign_inf (d : JSNum) (s : Bool) : assign d (inf s) = inf s := by
  simp [assign]
@[simp] theorem assign_zero_fin (a : ℝ) : assign (fin 0) (fin a) = fin a := by
  by_cases h : a = 0 <;> simp [assign, h]
theorem assign_one_fin (a : ℝ) :
    assign (fin 1) (fin a) = if a = 0 then fin 1 else fin a := by
  by_cases h : a = 0 <;> simp [assign, h]
@[simp] theorem assign_one_fin_ne (a : ℝ) (h : a ≠ 0) : assign (fin 1) (fin a) = fin a := by
  simp [assign, h]

@[simp] theorem defaultTo_none (d : JSNum) : defaultTo d none = d := rfl
@[simp] theorem defaultTo_some (d v : JSNum) : defaultTo d (some v) = assign d v := rfl

theorem assign_ne_nan {d : JSNum} (hd : d ≠ nan) (v : JSNum) : assign d v ≠ nan := by
  cases v with
  | nan => simpa [assign] using hd
  | inf s => simp [assign]
  | fin a => by_cases h : a = 0 <;> simp [assign, h, hd]

@[simp] theorem jsSub_fin_fin (a b : ℝ) : jsSub (fin a) (fin b) = fin (a - b) := by
  simp [jsSub, sub_eq_add_neg]
@[simp] theorem jsSub_nan_left (b : JSNum) : jsSub nan b = nan := by
  simp [jsSub]
@[simp] theorem jsSub_nan_right (a : JSNum) : jsSub a nan = nan := by
  simp [jsSub]
@[simp] theorem jsSub_inf_fin (s : Bool) (b : ℝ) : jsSub (inf s) (fin b) = inf s := by
  simp [jsSub]
@[simp] theorem jsSub_fin_inf (a : ℝ) (t : Bool) : jsSub (fin a) (inf t) = inf (!t) := by
  simp [jsSub]
@[simp] theorem jsSub_inf_inf (s t : Bool) :
    jsSub (inf s) (inf t) = if s = !t then inf s else nan := by
  simp [jsSub]

/-- IEEE `a - b` is the negation of `b - a`, in every special-value case. -/
theorem jsSub_antisymm (a b : JSNum) : jsSub a b = jsNeg (jsSub b a) := by
  cases a with
  | nan => cases b <;> simp
  | inf s =>
    cases b with
    | nan => simp
    | inf t => cases s <;> cases t <;> simp
    | fin c => simp
  | fin c =>
    cases b with
    | nan => simp
    | inf t => simp
    | fin d => simp [neg_sub]

/-- Squaring a JavaScript number ignores its sign, NaN and infinities
included. -/
theorem jsMul_self_neg (a : JSNum) : jsMul (jsNeg a) (jsNeg a) = jsMul a a := by
  cases a with
  | nan => simp
  | inf s => cases s <;> simp
  | fin c => simp [neg_mul_neg]

/-- IEEE multiplication is commutative (in every special-value case). -/
theorem jsMul_comm (a b : JSNum) : jsMul a b = jsMul b a := by
  cases a with
  | nan => simp
  | inf s =>
    cases b with
    | nan => simp
    | inf t => cases s <;> cases t <;> simp
    | fin c => simp
  | fin c =>
    cases b with
    | nan => simp
    | inf t => simp
    | fin d => simp [mul_comm]

/-- Collapsing through an x/y/z constructor slot commutes with negation
(the defaults are 0 and `-0 = 0` in the unsigned-zero model). -/
theorem assign_zero_neg (d : JSNum) : assign (fin 0) (jsNeg d) = jsNeg (assign (fin 0) d) := by
  cases d with
  | nan => simp
  | inf s => simp
  | fin c => simp

/-- `assign (fin 0) (a - b)` is the negation of `assign (fin 0) (b - a)`. -/
theorem assign_sub_antisymm (p q : JSNum) :
    assign (fin 0) (jsSub p q) = jsNeg (assign (fin 0) (jsSub q p)) := by
  rw [jsSub_antisymm p q, assign_zero_neg]

/-- The collapsed square of `p - q` equals the collapsed square of `q - p`. -/
theorem sq_assign_sub_symm (p q : JSNum) :
    jsMul (assign (fin 0) (jsSub p q)) (assign (fin 0) (jsSub p q)) =
      jsMul (assign (fin 0) (jsSub q p)) (assign (fin 0) (jsSub q p)) := by
  rw [assign_sub_antisymm p q]
  exact jsMul_self_neg _

/-- Same as `sq_assign_sub_symm` for a `w` slot whose default is 1. -/
theorem sq_assign_one_sub_symm (p q : JSNum) :
    jsMul (assign (fin 1) (jsSub p q)) (assign (fin 1) (jsSub p q)) =
      jsMul (assign (fin 1) (jsSub q p)) (assign (fin 1) (jsSub q p)) := by
  cases p with
  | nan => cases q <;> simp
  | inf s =>
    cases q with
    | nan => simp
    | inf t => cases s <;> cases t <;> simp
    | fin c => cases s <;> simp
  | fin c =>
    cases q with
    | nan => simp
    | inf t => cases t <;> simp
    | fin d =>
      by_cases h : c - d = 0
      · have h' : d - c = 0 := by linarith
        simp [h, h']
      · have h' : d - c ≠ 0 := fun hc => h (by linarith)
        simp [h, h', mul_self_eq_mul_self_iff]

/-- Multiplying any JavaScript number by the literal 0 and collapsing
through an x/y/z constructor slot yields exactly 0 (NaN from
`Infinity * 0` or `NaN * 0` is replaced by the default). -/
theorem assign_mul_zero (n : JSNum) : assign (fin 0) (jsMul n (fin 0)) = fin 0 := by
  cases n with
  | nan => simp
  | inf s => simp
  | fin c => simp

/-- Subtracting a number from itself and collapsing through an x/y/z slot
yields exactly 0, NaN and infinities included. -/
theorem assign_sub_self (n : JSNum) : assign (fin 0) (jsSub n n) = fin 0 := by
  cases n with
  | nan => simp
  | inf s => cases s <;> simp
  | fin c => simp

/-- Subtracting a number from itself and collapsing through the `w` slot
yields the default 1, for every JavaScript number. -/
theorem assign_one_sub_self (n : JSNum) : assign (fin 1) (jsSub n n) = fin 1 := by
  cases n with
  | nan => simp
  | inf s => cases s <;> simp
  | fin c => simp [assign_one_fin]

/-- Adding the literal 0 to a non-NaN number and collapsing through an
x/y/z slot gives the number back. -/
theorem assign_add_zero {n : JSNum} (h : n ≠ nan) : assign (fin 0) (jsAdd n (fin 0)) = n := by
  cases n with
  | nan => exact absurd rfl h
  | inf s => simp
  | fin c => simp

@[simp] theorem jsLe_fin_fin (a b : ℝ) : jsLe (fin a) (fin b) ↔ a ≤ b := by
  simp [jsLe, le_iff_lt_or_eq]
@[simp] theorem jsLe_nan_left (b : JSNum) : ¬ jsLe nan b := by
  simp [jsLe]
@[simp] theorem jsLe_inf_inf (s t : Bool) :
    jsLe (inf s) (inf t) ↔ (s = false ∧ t = true) ∨ s = t := by
  simp [jsLe]

/-- JavaScript `a <= b` rules out `b < a`. -/
theorem jsLe_not_jsLt {a b : JSNum} (h : jsLe a b) : ¬ jsLt b a := by
  rcases h with h | ⟨hn, rfl⟩
  · cases a <;> cases b <;> simp_all [jsLt]
    exact h.le
  · cases a with
    | nan => exact absurd rfl hn
    | inf s => cases s <;> simp
    | fin c => simp

/-- A constructor slot whose default is not NaN never holds NaN. -/
theorem defaultTo_ne_nan {d : JSNum} (hd : d ≠ nan) (o : Option JSNum) :
    defaultTo d o ≠ nan := by
  cases o with
  | none => simpa using hd
  | some v => exact assign_ne_nan hd v

/-- Multiplying by the literal 0 after a `w` slot and collapsing through a
`w` slot again yields the default 1 (`0 * NaN`, `Infinity * 0` and plain
0 are all falsy or NaN). -/
theorem assign_one_mul_zero (n : JSNum) :
    assign (fin 1) (jsMul (assign (fin 1) n) (fin 0)) = fin 1 := by
  cases n with
  | nan => simp [assign_one_fin]
  | inf s => simp
  | fin c =>
    by_cases h : c = 0 <;> simp [assign_one_fin, h]

/-- One component of `DoLerp` at `t = 0` on a non-NaN receiver component:
`a + (b - a) * 0` collapses back to exactly `a`. -/
theorem lerp_zero_comp {a : JSNum} (ha : a ≠ nan) (b : JSNum) :
    assign (fin 0) (jsAdd a
      (assign (fin 0) (jsMul (assign (fin 0) (jsSub b a)) (fin 0)))) = a := by
  rw [assign_mul_zero, assign_add_zero ha]

/-- One component of `DoLerp` at `t = 1` with a finite start component and
a non-NaN end component: `a + (b - a) * 1` collapses to exactly `b`. -/
theorem lerp_one_comp (c : ℝ) {b : JSNum} (hb : b ≠ nan) :
    assign (fin 0) (jsAdd (fin c)
      (assign (fin 0) (jsMul (assign (fin 0) (jsSub b (fin c))) (fin 1)))) = b := by
  cases b with
  | nan => exact absurd rfl hb
  | inf t => simp
  | fin d =>
    have h : c + (d - c) = d := by ring
    simp [mul_one, h]

/-- One component of `DoLerp(v, v, NaN)` on a non-NaN component: the
`(v - v) * NaN` slot collapses to 0 (the NaN is falsy), so the component
comes back unchanged — no NaN propagates. -/
theorem lerp_nan_self_comp {a : JSNum} (ha : a ≠ nan) :
    assign (fin 0) (jsAdd a
      (assign (fin 0) (jsMul (assign (fin 0) (jsSub a a)) nan))) = a := by
  rw [assign_sub_self]
  show assign (fin 0) (jsAdd a (assign (fin 0) (jsMul (fin 0) nan))) = a
  rw [jsMul_nan_right, assign_nan, assign_add_zero ha]

/-- A positive number (finite or +Infinity) divided by the literal 0 is
+Infinity. -/
theorem jsDiv_pos_zero {d : JSNum} (h : jsLt (fin 0) d) : jsDiv d (fin 0) = inf true := by
  cases d with
  | nan => exact absurd h (by simp)
  | inf s =>
    have hs : s = true := by simpa using h
    subst hs
    simp
  | fin c =>
    have hc : 0 < c := by simpa using h
    simp [hc, hc.ne']

/-- Dividing by the literal 1 is the identity for every JavaScript
number. -/
theorem jsDiv_one (d : JSNum) : jsDiv d (fin 1) = d := by
  cases d with
  | nan => simp
  | inf s => simp
  | fin c => simp

/-- A non-NaN number times the literal 1, collapsed through an x/y/z
slot, is unchanged. -/
theorem assign_mul_one {n : JSNum} (h : n ≠ nan) :
    assign (fin 0) (jsMul n (fin 1)) = n := by
  cases n with
  | nan => exact absurd rfl h
  | inf s => simp
  | fin c => simp [mul_one]

/-- A non-NaN, nonzero number times the literal 1, collapsed through the
`w` slot, is unchanged. -/
theorem assign_one_mul_one {n : JSNum} (h : n ≠ nan) (h0 : n ≠ fin 0) :
    assign (fin 1) (jsMul n (fin 1)) = n := by
  cases n with
  | nan => exact absurd rfl h
  | inf s => simp
  | fin c =>
    have hc : c ≠ 0 := fun hcc => h0 (by rw [hcc])
    simp [mul_one, hc]

end JSNum

namespace VecLib

/-- Magnitude of a finite `Vector2`, as an exact real square root. -/
theorem Vector2.magnitude_fin2 (x y : ℝ) :
    Vector2.magnitude ⟨fin x, fin y⟩ = fin (Real.sqrt (x * x + y * y)) := by
  have h : ¬ (x * x + y * y < 0) := by nlinarith [mul_self_nonneg x, mul_self_nonneg y]
  simp [Vector2.magnitude, h]

/-- Magnitude of a finite `Vector3`. -/
theorem Vector3.magnitude_fin3 (x y z : ℝ) :
    Vector3.magnitude ⟨fin x, fin y, fin z⟩ = fin (Real.sqrt (x * x + y * y + z * z)) := by
  have h : ¬ (x * x + y * y + z * z < 0) := by
    nlinarith [mul_self_nonneg x, mul_self_nonneg y, mul_self_nonneg z]
  simp [Vector3.magnitude, h]

/-- Magnitude of a finite `Vector4`. -/
theorem Vector4.magnitude_fin4 (x y z w : ℝ) :
    Vector4.magnitude ⟨fin x, fin y, fin z, fin w⟩ =
      fin (Real.sqrt (x * x + y * y + z * z + w * w)) := by
  have h : ¬ (x * x + y * y + z * z + w * w < 0) := by
    nlinarith [mul_self_nonneg x, mul_self_nonneg y, mul_self_nonneg z, mul_self_nonneg w]
  simp [Vector4.magnitude, h]

/-- C3: for every vector of each of the three types, `sqrMagnitude` is
`Math.sqrt(magnitude)`, i.e. the fourth root of the sum of squared
components — not the squared magnitude the name conventionally denotes,
as witnessed by the concrete vector (3, 4) where the two differ. -/
theorem c3_sqrMagnitude_is_fourth_root :
    (∀ v : Vector2,
      v.sqrMagnitude = jsSqrt (jsSqrt (jsAdd (jsMul v.x v.x) (jsMul v.y v.y)))) ∧
    (∀ v : Vector3,
      v.sqrMagnitude =
        jsSqrt (jsSqrt (jsAdd (jsAdd (jsMul v.x v.x) (jsMul v.y v.y)) (jsMul v.z v.z)))) ∧
    (∀ v : Vector4,
      v.sqrMagnitude =
        jsSqrt (jsSqrt (jsAdd (jsAdd (jsAdd (jsMul v.x v.x) (jsMul v.y v.y))
          (jsMul v.z v.z)) (jsMul v.w v.w)))) ∧
    (Vector2.mk (fin 3) (fin 4)).sqrMagnitude ≠ fin (3 * 3 + 4 * 4 : ℝ) := by
  refine ⟨fun v => rfl, fun v => rfl, fun v => rfl, ?_⟩
  have h25 : Real.sqrt (3 * 3 + 4 * 4 : ℝ) = 5 := by
    rw [show (3 * 3 + 4 * 4 : ℝ) = 5 ^ 2 by norm_num]
    exact Real.sqrt_sq (by norm_num)
  have hmag : (Vector2.mk (fin 3) (fin 4)).magnitude = fin 5 := by
    rw [Vector2.magnitude_fin2, h25]
  rw [Vector2.sqrMagnitude, hmag]
  have h5 : ¬ ((5 : ℝ) < 0) := by norm_num
  simp only [jsSqrt_fin, if_neg h5]
  intro h
  have h' : Real.sqrt 5 = (3 * 3 + 4 * 4 : ℝ) := by
    injection h
  have := Real.sq_sqrt (by norm_num : (0:ℝ) ≤ 5)
  rw [h'] at this
  norm_num at this

/-- C2 (the code's actual behavior): `Vector4.zero` evaluates to
(0, 0, 0, 1) — the constructor's truthiness check treats the supplied 0
for `w` as absent, so `w` keeps its field default 1 — and normalizing a
Vector4 whose four fields are all 0 (magnitude 0) returns this
(0, 0, 0, 1) vector, whose `w` is not 0. -/
theorem c2_vector4_zero_has_w_one :
    Vector4.zero = ⟨fin 0, fin 0, fin 0, fin 1⟩ ∧
    (Vector4.mk (fin 0) (fin 0) (fin 0) (fin 0)).normalized = Vector4.zero ∧
    Vector4.zero.w ≠ fin 0 := by
  have hz : Vector4.zero = ⟨fin 0, fin 0, fin 0, fin 1⟩ := by
    simp [Vector4.zero, Vector4.make, assign_one_fin]
  refine ⟨hz, ?_, ?_⟩
  · have hm : (Vector4.mk (fin 0) (fin 0) (fin 0) (fin 0)).magnitude = fin 0 := by
      simpa using Vector4.magnitude_fin4 0 0 0 0
    simp [Vector4.normalized, hm]
  · rw [hz]
    simp

/-- C8: Cross is anticommutative: for Vector3, `Cross(a, b)` equals the
componentwise IEEE negation of `Cross(b, a)` for all inputs, NaN and
infinities included; for Vector2, the scalar cross value stored in the
result's `x` flips sign and the `y` component is always 0. -/
theorem c8_cross_anticommutative :
    (∀ a b : Vector3, Vector3.Cross a b = Vector3.compNeg (Vector3.Cross b a)) ∧
    (∀ a b : Vector2, (Vector2.Cross a b).x = jsNeg ((Vector2.Cross b a).x)) ∧
    (∀ a b : Vector2, (Vector2.Cross a b).y = fin 0) := by
  refine ⟨fun a b => ?_, fun a b => ?_, fun a b => rfl⟩
  · ext
    · show assign (fin 0) (jsSub (jsMul a.y b.z) (jsMul a.z b.y)) =
        jsNeg (assign (fin 0) (jsSub (jsMul b.y a.z) (jsMul b.z a.y)))
      rw [jsMul_comm b.y a.z, jsMul_comm b.z a.y]
      exact assign_sub_antisymm _ _
    · show assign (fin 0) (jsSub (jsMul a.z b.x) (jsMul a.x b.z)) =
        jsNeg (assign (fin 0) (jsSub (jsMul b.z a.x) (jsMul b.x a.z)))
      rw [jsMul_comm b.z a.x, jsMul_comm b.x a.z]
      exact assign_sub_antisymm _ _
    · show assign (fin 0) (jsSub (jsMul a.x b.y) (jsMul a.y b.x)) =
        jsNeg (assign (fin 0) (jsSub (jsMul b.x a.y) (jsMul b.y a.x)))
      rw [jsMul_comm b.x a.y, jsMul_comm b.y a.x]
      exact assign_sub_antisymm _ _
  · show assign (fin 0) (jsSub (jsMul a.x b.y) (jsMul b.x a.y)) =
      jsNeg (assign (fin 0) (jsSub (jsMul b.x a.y) (jsMul a.x b.y)))
    exact assign_sub_antisymm _ _

/-- C10: Distance is symmetric for all three vector types and for every
input, components that are NaN or infinite included: the componentwise
differences are IEEE negations of each other (also after the
constructor's truthiness collapse) and squaring erases the sign. -/
theorem c10_distance_symmetric :
    (∀ a b : Vector2, Vector2.Distance a b = Vector2.Distance b a) ∧
    (∀ a b : Vector3, Vector3.Distance a b = Vector3.Distance b a) ∧
    (∀ a b : Vector4, Vector4.Distance a b = Vector4.Distance b a) := by
  refine ⟨fun a b => ?_, fun a b => ?_, fun a b => ?_⟩
  · show jsSqrt (jsAdd
        (jsMul (assign (fin 0) (jsSub a.x b.x)) (assign (fin 0) (jsSub a.x b.x)))
        (jsMul (assign (fin 0) (jsSub a.y b.y)) (assign (fin 0) (jsSub a.y b.y)))) =
      jsSqrt (jsAdd
        (jsMul (assign (fin 0) (jsSub b.x a.x)) (assign (fin 0) (jsSub b.x a.x)))
        (jsMul (assign (fin 0) (jsSub b.y a.y)) (assign (fin 0) (jsSub b.y a.y))))
    rw [sq_assign_sub_symm a.x b.x, sq_assign_sub_symm a.y b.y]
  · show jsSqrt (jsAdd (jsAdd
        (jsMul (assign (fin 0) (jsSub a.x b.x)) (assign (fin 0) (jsSub a.x b.x)))
        (jsMul (assign (fin 0) (jsSub a.y b.y)) (assign (fin 0) (jsSub a.y b.y))))
        (jsMul (assign (fin 0) (jsSub a.z b.z)) (assign (fin 0) (jsSub a.z b.z)))) =
      jsSqrt (jsAdd (jsAdd
        (jsMul (assign (fin 0) (jsSub b.x a.x)) (assign (fin 0) (jsSub b.x a.x)))
        (jsMul (assign (fin 0) (jsSub b.y a.y)) (assign (fin 0) (jsSub b.y a.y))))
        (jsMul (assign (fin 0) (jsSub b.z a.z)) (assign (fin 0) (jsSub b.z a.z))))
    rw [sq_assign_sub_symm a.x b.x, sq_assign_sub_symm a.y b.y, sq_assign_sub_symm a.z b.z]
  · show jsSqrt (jsAdd (jsAdd (jsAdd
        (jsMul (assign (fin 0) (jsSub a.x b.x)) (assign (fin 0) (jsSub a.x b.x)))
        (jsMul (assign (fin 0) (jsSub a.y b.y)) (assign (fin 0) (jsSub a.y b.y))))
        (jsMul (assign (fin 0) (jsSub a.z b.z)) (assign (fin 0) (jsSub a.z b.z))))
        (jsMul (assign (fin 1) (jsSub a.w b.w)) (assign (fin 1) (jsSub a.w b.w)))) =
      jsSqrt (jsAdd (jsAdd (jsAdd
        (jsMul (assign (fin 0) (jsSub b.x a.x)) (assign (fin 0) (jsSub b.x a.x)))
        (jsMul (assign (fin 0) (jsSub b.y a.y)) (assign (fin 0) (jsSub b.y a.y))))
        (jsMul (assign (fin 0) (jsSub b.z a.z)) (assign (fin 0) (jsSub b.z a.z))))
        (jsMul (assign (fin 1) (jsSub b.w a.w)) (assign (fin 1) (jsSub b.w a.w))))
    rw [sq_assign_sub_symm a.x b.x, sq_assign_sub_symm a.y b.y, sq_assign_sub_symm a.z b.z,
      sq_assign_one_sub_symm a.w b.w]

/-- Every vector built through the Vector2 constructor has NaN-free
components (the defaults are not NaN and NaN arguments are falsy). -/
theorem Vector2.make_ne_nan (ox oy : Option JSNum) :
    (Vector2.make ox oy).x ≠ nan ∧ (Vector2.make ox oy).y ≠ nan :=
  ⟨defaultTo_ne_nan (by simp) ox, defaultTo_ne_nan (by simp) oy⟩

/-- C1 counterexample: `Vector2.Divide(Vector2.zero, 0)` computes
`0 / 0 = NaN` in both components, but the constructor's truthiness check
replaces NaN by the default 0, so the caller receives (0, 0) — not the
claimed (NaN, NaN). -/
theorem c1_counterexample :
    Vector2.Divide Vector2.zero (Sum.inl (fin 0)) = Vector2.mk (fin 0) (fin 0) ∧
    (fin 0 : JSNum) ≠ nan := by
  constructor
  · ext <;> simp [Vector2.Divide, Vector2.zero, Vector2.make]
  · simp

/-- C1 (amended): division by a zero scalar or by a vector with a zero
component follows IEEE-754 semantics inside the computation; the
resulting ±Infinity components (nonzero numerator) reach the caller
unchanged, but a NaN component from `0 / 0` is replaced by the
constructor's default (0 for x/y/z, 1 for Vector4's w) in the static
forms; the instance `Divide` assigns fields directly and stores NaN and
±Infinity untouched. -/
theorem c1_divide_by_zero_amended :
    (∀ (a : Vector2) (c : ℝ), a.x = fin c → c ≠ 0 →
      (Vector2.Divide a (Sum.inl (fin 0))).x = if 0 < c then inf true else inf false) ∧
    (∀ a : Vector2, a.x = fin 0 → (Vector2.Divide a (Sum.inl (fin 0))).x = fin 0) ∧
    (∀ (a b : Vector2) (c : ℝ), a.y = fin c → c ≠ 0 → b.y = fin 0 →
      (Vector2.Divide a (Sum.inr b)).y = if 0 < c then inf true else inf false) ∧
    (∀ a b : Vector2, a.y = fin 0 → b.y = fin 0 →
      (Vector2.Divide a (Sum.inr b)).y = fin 0) ∧
    (∀ (a : Vector3) (c : ℝ), a.x = fin c → c ≠ 0 →
      (Vector3.Divide a (Sum.inl (fin 0))).x = if 0 < c then inf true else inf false) ∧
    (∀ a : Vector3, a.x = fin 0 → (Vector3.Divide a (Sum.inl (fin 0))).x = fin 0) ∧
    (∀ a : Vector4, a.w = fin 0 → (Vector4.Divide a (Sum.inl (fin 0))).w = fin 1) ∧
    (∀ a : Vector2, a.x = fin 0 → (Vector2.DivideI a (Sum.inl (fin 0))).x = nan) ∧
    (∀ (a : Vector2) (c : ℝ), a.x = fin c → c ≠ 0 →
      (Vector2.DivideI a (Sum.inl (fin 0))).x = if 0 < c then inf true else inf false) := by
  refine ⟨?_, ?_, ?_, ?_, ?_, ?_, ?_, ?_, ?_⟩
  · intro a c hx hc
    show assign (fin 0) (jsDiv a.x (fin 0)) = _
    rw [hx]
    by_cases h : 0 < c <;> simp [hc, h]
  · intro a hx
    show assign (fin 0) (jsDiv a.x (fin 0)) = _
    rw [hx]
    simp
  · intro a b c hy hc hby
    show assign (fin 0) (jsDiv a.y b.y) = _
    rw [hy, hby]
    by_cases h : 0 < c <;> simp [hc, h]
  · intro a b hy hby
    show assign (fin 0) (jsDiv a.y b.y) = _
    rw [hy, hby]
    simp
  · intro a c hx hc
    show assign (fin 0) (jsDiv a.x (fin 0)) = _
    rw [hx]
    by_cases h : 0 < c <;> simp [hc, h]
  · intro a hx
    show assign (fin 0) (jsDiv a.x (fin 0)) = _
    rw [hx]
    simp
  · intro a hw
    show assign (fin 1) (jsDiv a.w (fin 0)) = _
    rw [hw]
    simp
  · intro a hx
    show jsDiv a.x (fin 0) = _
    rw [hx]
    simp
  · intro a c hx hc
    show jsDiv a.x (fin 0) = _
    rw [hx]
    by_cases h : 0 < c <;> simp [hc, h]

/-- C1 witness: the amended theorem evaluated at concrete inputs. -/
theorem c1_divide_by_zero_amended_witness :
    (Vector2.Divide (Vector2.mk (fin 2) (fin 3)) (Sum.inl (fin 0))).x = inf true ∧
    (Vector4.Divide (Vector4.mk (fin 0) (fin 0) (fin 0) (fin 0)) (Sum.inl (fin 0))).w = fin 1 ∧
    (Vector2.DivideI (Vector2.mk (fin 0) (fin 0)) (Sum.inl (fin 0))).x = nan := by
  refine ⟨?_, ?_, ?_⟩
  · have h := c1_divide_by_zero_amended.1 (Vector2.mk (fin 2) (fin 3)) 2 rfl (by norm_num)
    rw [h]
    norm_num
  · exact c1_divide_by_zero_amended.2.2.2.2.2.2.1 (Vector4.mk (fin 0) (fin 0) (fin 0) (fin 0)) rfl
  · exact c1_divide_by_zero_amended.2.2.2.2.2.2.2.1 (Vector2.mk (fin 0) (fin 0)) rfl

/-- C9 counterexample: `Lerp` is on the claim's list of operations that
never return a NaN component, yet its `t < 0` branch returns the input
`a` itself without passing through the constructor; a vector whose NaN
was stored by the instance `Divide` mutator is returned with NaN
intact. -/
theorem c9_counterexample :
    (Vector2.Lerp (Vector2.DivideI Vector2.zero (Sum.inl (fin 0))) Vector2.one
      (fin (-1))).x = nan := by
  have hd : Vector2.DivideI Vector2.zero (Sum.inl (fin 0)) = Vector2.mk nan nan := by
    ext <;> simp [Vector2.DivideI, Vector2.zero, Vector2.make]
  rw [hd]
  have ht : jsLt (fin (-1)) (fin 0) := by
    simp
  simp [Vector2.Lerp, ht]

/-- C9 (amended): every static Vector2 operation whose result is built
through the constructor — Add, Subtract, Multiply, Divide, Max, Min,
Cross, ClampMagnitude, LerpUnclamped, the `normalized` accessor, and
Lerp on its interpolating branch — returns NaN-free components, because
the constructor's truthiness check replaces a NaN argument by the
component default; `Vector4.Multiply(Vector4.one, NaN)` yields
(0, 0, 0, 1) with `w = 1`; Lerp's pass-through branches and the instance
mutators can still hand back NaN. -/
theorem c9_constructor_blocks_nan_amended :
    (∀ (a : Vector2) (r : JSNum ⊕ Vector2),
      (Vector2.Add a r).x ≠ nan ∧ (Vector2.Add a r).y ≠ nan) ∧
    (∀ (a : Vector2) (r : JSNum ⊕ Vector2),
      (Vector2.Subtract a r).x ≠ nan ∧ (Vector2.Subtract a r).y ≠ nan) ∧
    (∀ (a : Vector2) (r : JSNum ⊕ Vector2),
      (Vector2.Multiply a r).x ≠ nan ∧ (Vector2.Multiply a r).y ≠ nan) ∧
    (∀ (a : Vector2) (r : JSNum ⊕ Vector2),
      (Vector2.Divide a r).x ≠ nan ∧ (Vector2.Divide a r).y ≠ nan) ∧
    (∀ a b : Vector2, (Vector2.Max a b).x ≠ nan ∧ (Vector2.Max a b).y ≠ nan) ∧
    (∀ a b : Vector2, (Vector2.Min a b).x ≠ nan ∧ (Vector2.Min a b).y ≠ nan) ∧
    (∀ a b : Vector2, (Vector2.Cross a b).x ≠ nan ∧ (Vector2.Cross a b).y ≠ nan) ∧
    (∀ (v : Vector2) (m : JSNum),
      (Vector2.ClampMagnitude v m).x ≠ nan ∧ (Vector2.ClampMagnitude v m).y ≠ nan) ∧
    (∀ (a b : Vector2) (t : JSNum),
      (Vector2.LerpUnclamped a b t).x ≠ nan ∧ (Vector2.LerpUnclamped a b t).y ≠ nan) ∧
    (∀ v : Vector2, v.normalized.x ≠ nan ∧ v.normalized.y ≠ nan) ∧
    (∀ (a b : Vector2) (t : JSNum), ¬ jsLt t (fin 0) → ¬ jsLt (fin 1) t →
      (Vector2.Lerp a b t).x ≠ nan ∧ (Vector2.Lerp a b t).y ≠ nan) ∧
    Vector4.Multiply Vector4.one (Sum.inl nan) = Vector4.mk (fin 0) (fin 0) (fin 0) (fin 1) ∧
    (Vector2.MultiplyI Vector2.one (Sum.inl nan)).x = nan := by
  refine ⟨fun a r => ?_, fun a r => ?_, fun a r => ?_, fun a r => ?_,
    fun a b => Vector2.make_ne_nan _ _, fun a b => Vector2.make_ne_nan _ _,
    fun a b => Vector2.make_ne_nan _ _, fun v m => Vector2.make_ne_nan _ _,
    fun a b t => Vector2.make_ne_nan _ _, fun v => ?_, fun a b t h1 h2 => ?_, ?_, ?_⟩
  · cases r <;> exact Vector2.make_ne_nan _ _
  · cases r <;> exact Vector2.make_ne_nan _ _
  · cases r <;> exact Vector2.make_ne_nan _ _
  · cases r <;> exact Vector2.make_ne_nan _ _
  · unfold Vector2.normalized
    split
    · exact Vector2.make_ne_nan _ _
    · exact Vector2.make_ne_nan _ _
  · unfold Vector2.Lerp
    rw [if_neg h1, if_neg h2]
    exact Vector2.make_ne_nan _ _
  · ext <;> simp [Vector4.Multiply, Vector4.one, Vector4.make]
  · simp [Vector2.MultiplyI, Vector2.one, Vector2.make]

/-- C9 witness: the amended theorem's Lerp clause at `t = 0`. -/
theorem c9_constructor_blocks_nan_amended_witness :
    (Vector2.Lerp Vector2.one Vector2.one (fin 0)).x ≠ nan := by
  exact (c9_constructor_blocks_nan_amended.2.2.2.2.2.2.2.2.2.2.1
    Vector2.one Vector2.one (fin 0) (by simp) (by simp)).1

/-- C4 counterexample: `Lerp(a, b, 0) == a` and `Lerp(a, b, 1) == b` both
fail as universally stated.  `Vector4.Lerp(one, one, 0)` has `w = 2`:
`Subtract(one, one)` collapses `w` to the default 1, which `* 0` and the
constructor turn into 1 again, and `Add` then yields `w = 1 + 1`.  For
Vector2, `Lerp(positiveInfinity, one, 1)` computes
`Infinity + (1 - Infinity) * 1 = NaN`, which the constructor replaces by
0, so the result is (0, 0), not `b = (1, 1)`. -/
theorem c4_counterexample :
    Vector4.Lerp Vector4.one Vector4.one (fin 0) ≠ Vector4.one ∧
    Vector2.Lerp Vector2.positiveInfinity Vector2.one (fin 1) ≠ Vector2.one := by
  have h41 : Vector4.one = ⟨fin 1, fin 1, fin 1, fin 1⟩ := by
    simp [Vector4.one, Vector4.make]
  have h21 : Vector2.one = ⟨fin 1, fin 1⟩ := by
    simp [Vector2.one, Vector2.make]
  have hp : Vector2.positiveInfinity = ⟨inf true, inf true⟩ := by
    simp [Vector2.positiveInfinity, Vector2.make]
  constructor
  · intro h
    have hw : (Vector4.Lerp Vector4.one Vector4.one (fin 0)).w = fin 2 := by
      rw [h41]
      unfold Vector4.Lerp
      rw [if_neg (by simp), if_neg (by norm_num)]
      show assign (fin 1) (jsAdd (fin 1)
        (assign (fin 1) (jsMul (assign (fin 1) (jsSub (fin 1) (fin 1))) (fin 0)))) = fin 2
      rw [assign_one_mul_zero]
      norm_num [assign_one_fin]
    rw [h] at hw
    rw [h41] at hw
    have : (2 : ℝ) = 1 := by injection hw.symm
    norm_num at this
  · intro h
    have hx : (Vector2.Lerp Vector2.positiveInfinity Vector2.one (fin 1)).x = fin 0 := by
      rw [hp, h21]
      unfold Vector2.Lerp
      rw [if_neg (by norm_num), if_neg (by simp)]
      show assign (fin 0) (jsAdd (inf true)
        (assign (fin 0) (jsMul (assign (fin 0) (jsSub (fin 1) (inf true))) (fin 1)))) = fin 0
      simp
    rw [h] at hx
    rw [h21] at hx
    have : (1 : ℝ) = 0 := by injection hx
    norm_num at this

/-- C4 (amended): for all three types, `Lerp(a, b, t)` with `t < 0`
returns `a` itself and with `t > 1` (and not `t < 0`) returns `b`
itself, and otherwise routes through the shared `DoLerp` routine, i.e.
equals `LerpUnclamped(a, b, t)`.  `Lerp(a, b, 0) = a` holds exactly for
Vector2/Vector3 when `a` has no NaN component, and `Lerp(a, b, 1) = b`
when `a` is finite and `b` has no NaN component.  For Vector4 the
identities break on `w`: `Lerp(a, b, 0)` returns `a` with `w` replaced
by the constructor-collapsed `a.w + 1`. -/
theorem c4_lerp_amended :
    (∀ (a b : Vector2) (t : JSNum), jsLt t (fin 0) → Vector2.Lerp a b t = a) ∧
    (∀ (a b : Vector3) (t : JSNum), jsLt t (fin 0) → Vector3.Lerp a b t = a) ∧
    (∀ (a b : Vector4) (t : JSNum), jsLt t (fin 0) → Vector4.Lerp a b t = a) ∧
    (∀ (a b : Vector2) (t : JSNum), ¬ jsLt t (fin 0) → jsLt (fin 1) t →
      Vector2.Lerp a b t = b) ∧
    (∀ (a b : Vector3) (t : JSNum), ¬ jsLt t (fin 0) → jsLt (fin 1) t →
      Vector3.Lerp a b t = b) ∧
    (∀ (a b : Vector4) (t : JSNum), ¬ jsLt t (fin 0) → jsLt (fin 1) t →
      Vector4.Lerp a b t = b) ∧
    (∀ (a b : Vector2) (t : JSNum), ¬ jsLt t (fin 0) → ¬ jsLt (fin 1) t →
      Vector2.Lerp a b t = Vector2.LerpUnclamped a b t) ∧
    (∀ (a b : Vector3) (t : JSNum), ¬ jsLt t (fin 0) → ¬ jsLt (fin 1) t →
      Vector3.Lerp a b t = Vector3.LerpUnclamped a b t) ∧
    (∀ (a b : Vector4) (t : JSNum), ¬ jsLt t (fin 0) → ¬ jsLt (fin 1) t →
      Vector4.Lerp a b t = Vector4.LerpUnclamped a b t) ∧
    (∀ a b : Vector2, a.x ≠ nan → a.y ≠ nan → Vector2.Lerp a b (fin 0) = a) ∧
    (∀ a b : Vector3, a.x ≠ nan → a.y ≠ nan → a.z ≠ nan →
      Vector3.Lerp a b (fin 0) = a) ∧
    (∀ (ax ay : ℝ) (b : Vector2), b.x ≠ nan → b.y ≠ nan →
      Vector2.Lerp (Vector2.mk (fin ax) (fin ay)) b (fin 1) = b) ∧
    (∀ (ax ay az : ℝ) (b : Vector3), b.x ≠ nan → b.y ≠ nan → b.z ≠ nan →
      Vector3.Lerp (Vector3.mk (fin ax) (fin ay) (fin az)) b (fin 1) = b) ∧
    (∀ a b : Vector4, a.x ≠ nan → a.y ≠ nan → a.z ≠ nan →
      Vector4.Lerp a b (fin 0) = ⟨a.x, a.y, a.z, assign (fin 1) (jsAdd a.w (fin 1))⟩) := by
  have hlt0 : ¬ jsLt (fin (0 : ℝ)) (fin 0) := by simp
  have hlt1 : ¬ jsLt (fin (1 : ℝ)) (fin 0) := by norm_num
  have hlt0' : ¬ jsLt (fin (1 : ℝ)) (fin 0) := hlt1
  have hle1 : ¬ jsLt (fin (1 : ℝ)) (fin 1) := by simp
  refine ⟨?_, ?_, ?_, ?_, ?_, ?_, ?_, ?_, ?_, ?_, ?_, ?_, ?_, ?_⟩
  · intro a b t h
    unfold Vector2.Lerp
    rw [if_pos h]
  · intro a b t h
    unfold Vector3.Lerp
    rw [if_pos h]
  · intro a b t h
    unfold Vector4.Lerp
    rw [if_pos h]
  · intro a b t h1 h2
    unfold Vector2.Lerp
    rw [if_neg h1, if_pos h2]
  · intro a b t h1 h2
    unfold Vector3.Lerp
    rw [if_neg h1, if_pos h2]
  · intro a b t h1 h2
    unfold Vector4.Lerp
    rw [if_neg h1, if_pos h2]
  · intro a b t h1 h2
    unfold Vector2.Lerp
    rw [if_neg h1, if_neg h2]
    rfl
  · intro a b t h1 h2
    unfold Vector3.Lerp
    rw [if_neg h1, if_neg h2]
    rfl
  · intro a b t h1 h2
    unfold Vector4.Lerp
    rw [if_neg h1, if_neg h2]
    rfl
  · intro a b hax hay
    unfold Vector2.Lerp
    rw [if_neg hlt0, if_neg hlt1]
    ext
    · exact lerp_zero_comp hax b.x
    · exact lerp_zero_comp hay b.y
  · intro a b hax hay haz
    unfold Vector3.Lerp
    rw [if_neg hlt0, if_neg hlt1]
    ext
    · exact lerp_zero_comp hax b.x
    · exact lerp_zero_comp hay b.y
    · exact lerp_zero_comp haz b.z
  · intro ax ay b hbx hby
    unfold Vector2.Lerp
    rw [if_neg hlt1, if_neg hle1]
    ext
    · exact lerp_one_comp ax hbx
    · exact lerp_one_comp ay hby
  · intro ax ay az b hbx hby hbz
    unfold Vector3.Lerp
    rw [if_neg hlt1, if_neg hle1]
    ext
    · exact lerp_one_comp ax hbx
    · exact lerp_one_comp ay hby
    · exact lerp_one_comp az hbz
  · intro a b hax hay haz
    unfold Vector4.Lerp
    rw [if_neg hlt0, if_neg hlt1]
    ext
    · exact lerp_zero_comp hax b.x
    · exact lerp_zero_comp hay b.y
    · exact lerp_zero_comp haz b.z
    · show assign (fin 1) (jsAdd a.w
        (assign (fin 1) (jsMul (assign (fin 1) (jsSub b.w a.w)) (fin 0)))) = _
      rw [assign_one_mul_zero]

/-- C4 witness: the amended theorem's clauses evaluated at concrete
inputs. -/
theorem c4_lerp_amended_witness :
    Vector2.Lerp Vector2.one Vector2.zero (fin (-1)) = Vector2.one ∧
    Vector2.Lerp Vector2.one Vector2.zero (fin 2) = Vector2.zero ∧
    Vector2.Lerp Vector2.one Vector2.zero (fin 0) = Vector2.one := by
  refine ⟨c4_lerp_amended.1 _ _ _ (by norm_num),
    c4_lerp_amended.2.2.2.1 _ _ _ (by norm_num) (by norm_num),
    c4_lerp_amended.2.2.2.2.2.2.2.2.2.1 _ _
      (by simp [Vector2.one, Vector2.make]) (by simp [Vector2.one, Vector2.make])⟩

/-- `Vector2.Subtract(v, v)` collapses both slots to exactly 0, NaN and
infinite components included. -/
theorem Vector2.sub_self2 (v : Vector2) :
    Vector2.Subtract v (Sum.inr v) = ⟨fin 0, fin 0⟩ := by
  ext
  · exact assign_sub_self v.x
  · exact assign_sub_self v.y

/-- `Vector3.Subtract(v, v)` is the all-zero vector. -/
theorem Vector3.sub_self3 (v : Vector3) :
    Vector3.Subtract v (Sum.inr v) = ⟨fin 0, fin 0, fin 0⟩ := by
  ext
  · exact assign_sub_self v.x
  · exact assign_sub_self v.y
  · exact assign_sub_self v.z

/-- `Vector4.Subtract(v, v)` has `w = 1`: the computed `w` difference 0 is
falsy, so the constructor keeps the `w` default. -/
theorem Vector4.sub_self4 (v : Vector4) :
    Vector4.Subtract v (Sum.inr v) = ⟨fin 0, fin 0, fin 0, fin 1⟩ := by
  ext
  · exact assign_sub_self v.x
  · exact assign_sub_self v.y
  · exact assign_sub_self v.z
  · exact assign_one_sub_self v.w

/-- `Vector2.Distance(v, v) = 0` for every input vector. -/
theorem Vector2.distance_self2 (v : Vector2) : Vector2.Distance v v = fin 0 := by
  unfold Vector2.Distance
  rw [Vector2.sub_self2, Vector2.magnitude_fin2]
  norm_num

/-- `Vector3.Distance(v, v) = 0` for every input vector. -/
theorem Vector3.distance_self3 (v : Vector3) : Vector3.Distance v v = fin 0 := by
  unfold Vector3.Distance
  rw [Vector3.sub_self3, Vector3.magnitude_fin3]
  norm_num

/-- `Vector4.Distance(v, v) = 1` for every input vector, because
`Subtract(v, v)` has `w = 1`. -/
theorem Vector4.distance_self4 (v : Vector4) : Vector4.Distance v v = fin 1 := by
  unfold Vector4.Distance
  rw [Vector4.sub_self4, Vector4.magnitude_fin4]
  norm_num [Real.sqrt_one]

/-- C5 counterexample: with `current = target = Vector2.one` and
`maxDistanceDelta = 0`, the result is `one` with finite components — the
NaN from `0 / 0` is collapsed to 0 inside the interpolation and does not
propagate; and for Vector4, `Distance(v, v)` is 1, not the distance 0
the claim asserts for `current == target`. -/
theorem c5_counterexample :
    Vector2.MoveTowards Vector2.one Vector2.one (fin 0) = Vector2.one ∧
    Vector2.one.x = fin 1 ∧ (fin 1 : JSNum) ≠ nan ∧
    Vector4.Distance Vector4.one Vector4.one = fin 1 := by
  have h21 : Vector2.one = ⟨fin 1, fin 1⟩ := by
    simp [Vector2.one, Vector2.make]
  refine ⟨?_, by rw [h21], by simp, Vector4.distance_self4 _⟩
  unfold Vector2.MoveTowards
  rw [Vector2.distance_self2]
  rw [show jsDiv (fin (0 : ℝ)) (fin 0) = nan from by simp]
  unfold Vector2.Lerp
  rw [if_neg (by simp), if_neg (by simp)]
  rw [h21]
  ext
  · exact lerp_nan_self_comp (by simp)
  · exact lerp_nan_self_comp (by simp)

/-- C5 (amended): `MoveTowards(current, target, d)` always equals
`Lerp(current, target, d / Distance(target, current))` (all three
types).  For Vector2/Vector3, when `current = target` the distance is 0,
so a positive `d` (the ratio is +Infinity) returns `target` itself,
while `d = 0` (ratio NaN) returns the current components unchanged for
NaN-free inputs — the NaN is collapsed by the constructor, it does not
propagate.  For Vector4, `Distance(v, v)` is 1 (the `w` slot of
`Subtract(v, v)` collapses to its default 1), so
`MoveTowards(v, v, d) = Lerp(v, v, d)`. -/
theorem c5_movetowards_amended :
    (∀ (current target : Vector2) (d : JSNum),
      Vector2.MoveTowards current target d =
        Vector2.Lerp current target (jsDiv d (Vector2.Distance target current))) ∧
    (∀ (current target : Vector3) (d : JSNum),
      Vector3.MoveTowards current target d =
        Vector3.Lerp current target (jsDiv d (Vector3.Distance target current))) ∧
    (∀ (current target : Vector4) (d : JSNum),
      Vector4.MoveTowards current target d =
        Vector4.Lerp current target (jsDiv d (Vector4.Distance target current))) ∧
    (∀ (v : Vector2) (d : JSNum), jsLt (fin 0) d → Vector2.MoveTowards v v d = v) ∧
    (∀ (v : Vector3) (d : JSNum), jsLt (fin 0) d → Vector3.MoveTowards v v d = v) ∧
    (∀ v : Vector2, v.x ≠ nan → v.y ≠ nan → Vector2.MoveTowards v v (fin 0) = v) ∧
    (∀ v : Vector3, v.x ≠ nan → v.y ≠ nan → v.z ≠ nan →
      Vector3.MoveTowards v v (fin 0) = v) ∧
    (∀ v : Vector4, Vector4.Distance v v = fin 1) ∧
    (∀ (v : Vector4) (d : JSNum), Vector4.MoveTowards v v d = Vector4.Lerp v v d) := by
  refine ⟨fun current target d => rfl, fun current target d => rfl,
    fun current target d => rfl, ?_, ?_, ?_, ?_, Vector4.distance_self4, ?_⟩
  · intro v d h
    unfold Vector2.MoveTowards
    rw [Vector2.distance_self2, jsDiv_pos_zero h]
    unfold Vector2.Lerp
    rw [if_neg (by simp), if_pos (by simp)]
  · intro v d h
    unfold Vector3.MoveTowards
    rw [Vector3.distance_self3, jsDiv_pos_zero h]
    unfold Vector3.Lerp
    rw [if_neg (by simp), if_pos (by simp)]
  · intro v hx hy
    unfold Vector2.MoveTowards
    rw [Vector2.distance_self2]
    rw [show jsDiv (fin (0 : ℝ)) (fin 0) = nan from by simp]
    unfold Vector2.Lerp
    rw [if_neg (by simp), if_neg (by simp)]
    ext
    · exact lerp_nan_self_comp hx
    · exact lerp_nan_self_comp hy
  · intro v hx hy hz
    unfold Vector3.MoveTowards
    rw [Vector3.distance_self3]
    rw [show jsDiv (fin (0 : ℝ)) (fin 0) = nan from by simp]
    unfold Vector3.Lerp
    rw [if_neg (by simp), if_neg (by simp)]
    ext
    · exact lerp_nan_self_comp hx
    · exact lerp_nan_self_comp hy
    · exact lerp_nan_self_comp hz
  · intro v d
    unfold Vector4.MoveTowards
    rw [Vector4.distance_self4, jsDiv_one]

/-- C5 witness: the amended theorem's clauses at concrete inputs. -/
theorem c5_movetowards_amended_witness :
    Vector2.MoveTowards Vector2.zero Vector2.zero (fin 5) = Vector2.zero ∧
    Vector3.MoveTowards Vector3.one Vector3.one (fin 0) = Vector3.one := by
  refine ⟨c5_movetowards_amended.2.2.2.1 _ _ (by norm_num),
    c5_movetowards_amended.2.2.2.2.2.2.1 _
      (by simp [Vector3.one, Vector3.make]) (by simp [Vector3.one, Vector3.make])
      (by simp [Vector3.one, Vector3.make])⟩

/-- `normalized` of a finite Vector2 with positive magnitude: both
quotients are kept by the constructor (0 collapses to the same 0). -/
theorem Vector2.normalized_fin2 (x y : ℝ) (h : 0 < Real.sqrt (x * x + y * y)) :
    (Vector2.mk (fin x) (fin y)).normalized =
      ⟨fin (x / Real.sqrt (x * x + y * y)), fin (y / Real.sqrt (x * x + y * y))⟩ := by
  unfold Vector2.normalized
  rw [Vector2.magnitude_fin2, if_pos (by simpa using h)]
  ext <;> simp [Vector2.make, h.ne']

/-- `normalized` of a finite Vector3 with positive magnitude. -/
theorem Vector3.normalized_fin3 (x y z : ℝ)
    (h : 0 < Real.sqrt (x * x + y * y + z * z)) :
    (Vector3.mk (fin x) (fin y) (fin z)).normalized =
      ⟨fin (x / Real.sqrt (x * x + y * y + z * z)),
       fin (y / Real.sqrt (x * x + y * y + z * z)),
       fin (z / Real.sqrt (x * x + y * y + z * z))⟩ := by
  unfold Vector3.normalized
  rw [Vector3.magnitude_fin3, if_pos (by simpa using h)]
  ext <;> simp [Vector3.make, h.ne']

/-- `normalized` of a finite Vector4 with positive magnitude and `w ≠ 0`:
all four quotients are kept (`w / mag` is nonzero, hence truthy). -/
theorem Vector4.normalized_fin4 (x y z w : ℝ) (hw : w ≠ 0)
    (h : 0 < Real.sqrt (x * x + y * y + z * z + w * w)) :
    (Vector4.mk (fin x) (fin y) (fin z) (fin w)).normalized =
      ⟨fin (x / Real.sqrt (x * x + y * y + z * z + w * w)),
       fin (y / Real.sqrt (x * x + y * y + z * z + w * w)),
       fin (z / Real.sqrt (x * x + y * y + z * z + w * w)),
       fin (w / Real.sqrt (x * x + y * y + z * z + w * w))⟩ := by
  unfold Vector4.normalized
  rw [Vector4.magnitude_fin4, if_pos (by simpa using h)]
  have hq : w / Real.sqrt (x * x + y * y + z * z + w * w) ≠ 0 := div_ne_zero hw h.ne'
  ext <;> simp [Vector4.make, h.ne', hq]

/-- C6 counterexample: `new Vector2(Infinity, 0)` has magnitude +Infinity
(so magnitude > 0 and the dividing branch is taken), yet its `normalized`
is (0, 0) with magnitude 0, not ≈ 1: `Infinity / Infinity = NaN` is
collapsed to 0 by the constructor.  And for Vector4 with `w = 0`,
`normalized` is not the componentwise quotient: the computed `w / mag = 0`
is falsy, so `normalized.w` is the default 1. -/
theorem c6_counterexample :
    jsLt (fin 0) (Vector2.mk (inf true) (fin 0)).magnitude ∧
    (Vector2.mk (inf true) (fin 0)).normalized = Vector2.mk (fin 0) (fin 0) ∧
    (Vector2.mk (inf true) (fin 0)).normalized.magnitude = fin 0 ∧
    ¬ |(0 : ℝ) - 1| ≤ 1e-5 ∧
    (Vector4.mk (fin 3) (fin 4) (fin 0) (fin 0)).normalized.w = fin 1 := by
  have hmag : (Vector2.mk (inf true) (fin 0)).magnitude = inf true := by
    simp [Vector2.magnitude]
  have hnorm : (Vector2.mk (inf true) (fin 0)).normalized = Vector2.mk (fin 0) (fin 0) := by
    unfold Vector2.normalized
    rw [hmag, if_pos (by simp)]
    ext <;> simp [Vector2.make]
  refine ⟨by rw [hmag]; simp, hnorm, ?_, by norm_num, ?_⟩
  · rw [hnorm, Vector2.magnitude_fin2]
    norm_num
  · have hmag4 : (Vector4.mk (fin 3) (fin 4) (fin 0) (fin 0)).magnitude = fin 5 := by
      rw [Vector4.magnitude_fin4,
        show (3 * 3 + 4 * 4 + 0 * 0 + 0 * 0 : ℝ) = 5 ^ 2 by norm_num,
        Real.sqrt_sq (by norm_num)]
    unfold Vector4.normalized
    rw [hmag4, if_pos (by simp)]
    show assign (fin 1) (jsDiv (fin 0) (fin 5)) = fin 1
    norm_num [assign_one_fin]

/-- C6 (amended): for each type, when `magnitude > 0` the `normalized`
accessor returns the componentwise quotients routed through the
constructor, and when `magnitude = 0` it returns the type's `zero`
accessor value (for Vector4 that value has `w = 1`).  For finite vectors
with positive magnitude — and, for Vector4, `w ≠ 0` — the normalized
vector's magnitude is exactly 1 in exact arithmetic (hence ≈ 1 under
rounding).  The identity fails for vectors with infinite components
(`normalized` can be (0, 0)) and, for Vector4, when `w = 0`
(`normalized.w` is the default 1). -/
theorem c6_normalized_amended :
    (∀ v : Vector2, jsLt (fin 0) v.magnitude →
      v.normalized =
        Vector2.make (some (jsDiv v.x v.magnitude)) (some (jsDiv v.y v.magnitude))) ∧
    (∀ v : Vector3, jsLt (fin 0) v.magnitude →
      v.normalized = Vector3.make (some (jsDiv v.x v.magnitude))
        (some (jsDiv v.y v.magnitude)) (some (jsDiv v.z v.magnitude))) ∧
    (∀ v : Vector4, jsLt (fin 0) v.magnitude →
      v.normalized = Vector4.make (some (jsDiv v.x v.magnitude))
        (some (jsDiv v.y v.magnitude)) (some (jsDiv v.z v.magnitude))
        (some (jsDiv v.w v.magnitude))) ∧
    (∀ x y : ℝ, jsLt (fin 0) (Vector2.mk (fin x) (fin y)).magnitude →
      (Vector2.mk (fin x) (fin y)).normalized.magnitude = fin 1) ∧
    (∀ x y z : ℝ, jsLt (fin 0) (Vector3.mk (fin x) (fin y) (fin z)).magnitude →
      (Vector3.mk (fin x) (fin y) (fin z)).normalized.magnitude = fin 1) ∧
    (∀ x y z w : ℝ, w ≠ 0 →
      jsLt (fin 0) (Vector4.mk (fin x) (fin y) (fin z) (fin w)).magnitude →
      (Vector4.mk (fin x) (fin y) (fin z) (fin w)).normalized.magnitude = fin 1) ∧
    (∀ v : Vector2, v.magnitude = fin 0 → v.normalized = Vector2.zero) ∧
    (∀ v : Vector3, v.magnitude = fin 0 → v.normalized = Vector3.zero) ∧
    (∀ v : Vector4, v.magnitude = fin 0 → v.normalized = Vector4.zero) ∧
    (∀ x y z w : ℝ, w = 0 →
      jsLt (fin 0) (Vector4.mk (fin x) (fin y) (fin z) (fin w)).magnitude →
      (Vector4.mk (fin x) (fin y) (fin z) (fin w)).normalized.w = fin 1) := by
  refine ⟨?_, ?_, ?_, ?_, ?_, ?_, ?_, ?_, ?_, ?_⟩
  · intro v h
    unfold Vector2.normalized
    rw [if_pos h]
  · intro v h
    unfold Vector3.normalized
    rw [if_pos h]
  · intro v h
    unfold Vector4.normalized
    rw [if_pos h]
  · intro x y h
    rw [Vector2.magnitude_fin2] at h
    have hM : 0 < Real.sqrt (x * x + y * y) := by simpa using h
    have hs : 0 < x * x + y * y := Real.sqrt_pos.mp hM
    rw [Vector2.normalized_fin2 x y hM, Vector2.magnitude_fin2]
    have key : x / Real.sqrt (x * x + y * y) * (x / Real.sqrt (x * x + y * y)) +
        y / Real.sqrt (x * x + y * y) * (y / Real.sqrt (x * x + y * y)) = 1 := by
      have expand : x / Real.sqrt (x * x + y * y) * (x / Real.sqrt (x * x + y * y)) +
          y / Real.sqrt (x * x + y * y) * (y / Real.sqrt (x * x + y * y)) =
          (x * x + y * y) / (Real.sqrt (x * x + y * y) * Real.sqrt (x * x + y * y)) := by
        ring
      rw [expand, Real.mul_self_sqrt hs.le, div_self hs.ne']
    rw [key, Real.sqrt_one]
  · intro x y z h
    rw [Vector3.magnitude_fin3] at h
    have hM : 0 < Real.sqrt (x * x + y * y + z * z) := by simpa using h
    have hs : 0 < x * x + y * y + z * z := Real.sqrt_pos.mp hM
    rw [Vector3.normalized_fin3 x y z hM, Vector3.magnitude_fin3]
    have key : x / Real.sqrt (x * x + y * y + z * z) * (x / Real.sqrt (x * x + y * y + z * z)) +
        y / Real.sqrt (x * x + y * y + z * z) * (y / Real.sqrt (x * x + y * y + z * z)) +
        z / Real.sqrt (x * x + y * y + z * z) * (z / Real.sqrt (x * x + y * y + z * z)) = 1 := by
      have expand : x / Real.sqrt (x * x + y * y + z * z) * (x / Real.sqrt (x * x + y * y + z * z)) +
          y / Real.sqrt (x * x + y * y + z * z) * (y / Real.sqrt (x * x + y * y + z * z)) +
          z / Real.sqrt (x * x + y * y + z * z) * (z / Real.sqrt (x * x + y * y + z * z)) =
          (x * x + y * y + z * z) /
            (Real.sqrt (x * x + y * y + z * z) * Real.sqrt (x * x + y * y + z * z)) := by
        ring
      rw [expand, Real.mul_self_sqrt hs.le, div_self hs.ne']
    rw [key, Real.sqrt_one]
  · intro x y z w hw h
    rw [Vector4.magnitude_fin4] at h
    have hM : 0 < Real.sqrt (x * x + y * y + z * z + w * w) := by simpa using h
    have hs : 0 < x * x + y * y + z * z + w * w := Real.sqrt_pos.mp hM
    rw [Vector4.normalized_fin4 x y z w hw hM, Vector4.magnitude_fin4]
    have key : x / Real.sqrt (x * x + y * y + z * z + w * w) *
          (x / Real.sqrt (x * x + y * y + z * z + w * w)) +
        y / Real.sqrt (x * x + y * y + z * z + w * w) *
          (y / Real.sqrt (x * x + y * y + z * z + w * w)) +
        z / Real.sqrt (x * x + y * y + z * z + w * w) *
          (z / Real.sqrt (x * x + y * y + z * z + w * w)) +
        w / Real.sqrt (x * x + y * y + z * z + w * w) *
          (w / Real.sqrt (x * x + y * y + z * z + w * w)) = 1 := by
      have expand : x / Real.sqrt (x * x + y * y + z * z + w * w) *
          (x / Real.sqrt (x * x + y * y + z * z + w * w)) +
        y / Real.sqrt (x * x + y * y + z * z + w * w) *
          (y / Real.sqrt (x * x + y * y + z * z + w * w)) +
        z / Real.sqrt (x * x + y * y + z * z + w * w) *
          (z / Real.sqrt (x * x + y * y + z * z + w * w)) +
        w / Real.sqrt (x * x + y * y + z * z + w * w) *
          (w / Real.sqrt (x * x + y * y + z * z + w * w)) =
          (x * x + y * y + z * z + w * w) /
            (Real.sqrt (x * x + y * y + z * z + w * w) *
              Real.sqrt (x * x + y * y + z * z + w * w)) := by
        ring
      rw [expand, Real.mul_self_sqrt hs.le, div_self hs.ne']
    rw [key, Real.sqrt_one]
  · intro v h
    unfold Vector2.normalized
    rw [if_neg]
    rw [h]
    simp
  · intro v h
    unfold Vector3.normalized
    rw [if_neg]
    rw [h]
    simp
  · intro v h
    unfold Vector4.normalized
    rw [if_neg]
    rw [h]
    simp
  · intro x y z w hw h
    subst hw
    rw [Vector4.magnitude_fin4] at h
    have hM : 0 < Real.sqrt (x * x + y * y + z * z + 0 * 0) := by simpa using h
    unfold Vector4.normalized
    rw [Vector4.magnitude_fin4, if_pos (by simpa using hM)]
    show assign (fin 1) (jsDiv (fin 0) (fin (Real.sqrt (x * x + y * y + z * z + 0 * 0)))) = fin 1
    rw [jsDiv_fin_fin, if_neg hM.ne', zero_div]
    simp [assign_one_fin]

/-- C6 witness: the amended theorem's clauses at the concrete vectors
(3, 4) and (0, 0). -/
theorem c6_normalized_amended_witness :
    (Vector2.mk (fin 3) (fin 4)).normalized.magnitude = fin 1 ∧
    (Vector2.mk (fin 0) (fin 0)).normalized = Vector2.zero := by
  constructor
  · refine c6_normalized_amended.2.2.2.1 3 4 ?_
    rw [Vector2.magnitude_fin2]
    have : (0 : ℝ) < Real.sqrt (3 * 3 + 4 * 4) := Real.sqrt_pos.mpr (by norm_num)
    simpa using this
  · refine c6_normalized_amended.2.2.2.2.2.2.1 _ ?_
    rw [Vector2.magnitude_fin2]
    norm_num

/-- A NaN `x` field makes the Vector2 magnitude NaN. -/
theorem Vector2.magnitude_nan_x2 {v : Vector2} (h : v.x = nan) : v.magnitude = nan := by
  unfold Vector2.magnitude
  rw [h]
  simp

/-- A NaN `y` field makes the Vector2 magnitude NaN. -/
theorem Vector2.magnitude_nan_y2 {v : Vector2} (h : v.y = nan) : v.magnitude = nan := by
  unfold Vector2.magnitude
  rw [h]
  simp

/-- A NaN `x` field makes the Vector3 magnitude NaN. -/
theorem Vector3.magnitude_nan_x3 {v : Vector3} (h : v.x = nan) : v.magnitude = nan := by
  unfold Vector3.magnitude
  rw [h]
  simp

/-- A NaN `y` field makes the Vector3 magnitude NaN. -/
theorem Vector3.magnitude_nan_y3 {v : Vector3} (h : v.y = nan) : v.magnitude = nan := by
  unfold Vector3.magnitude
  rw [h]
  simp

/-- A NaN `z` field makes the Vector3 magnitude NaN. -/
theorem Vector3.magnitude_nan_z3 {v : Vector3} (h : v.z = nan) : v.magnitude = nan := by
  unfold Vector3.magnitude
  rw [h]
  simp

/-- A NaN `x` field makes the Vector4 magnitude NaN. -/
theorem Vector4.magnitude_nan_x4 {v : Vector4} (h : v.x = nan) : v.magnitude = nan := by
  unfold Vector4.magnitude
  rw [h]
  simp

/-- A NaN `y` field makes the Vector4 magnitude NaN. -/
theorem Vector4.magnitude_nan_y4 {v : Vector4} (h : v.y = nan) : v.magnitude = nan := by
  unfold Vector4.magnitude
  rw [h]
  simp

/-- A NaN `z` field makes the Vector4 magnitude NaN. -/
theorem Vector4.magnitude_nan_z4 {v : Vector4} (h : v.z = nan) : v.magnitude = nan := by
  unfold Vector4.magnitude
  rw [h]
  simp

/-- A NaN `w` field makes the Vector4 magnitude NaN. -/
theorem Vector4.magnitude_nan_w {v : Vector4} (h : v.w = nan) : v.magnitude = nan := by
  unfold Vector4.magnitude
  rw [h]
  simp

/-- C7 counterexample: `new Vector2(Infinity, 0)` with `maxLength = 5`
takes the scale-down branch (`Infinity > 5`), but the result is (0, 0)
with magnitude 0, not ≈ 5: the multiplier `5 / Infinity` is 0 and
`Infinity * 0 = NaN` collapses to 0.  And for Vector4, a vector with all
fields 0 and `maxLength = 5` satisfies `magnitude <= maxLength` but the
returned copy is (0, 0, 0, 1), not the vector's components: `w * 1 = 0`
is falsy and the `w` slot reverts to its default 1. -/
theorem c7_counterexample :
    jsLt (fin 5) (Vector2.mk (inf true) (fin 0)).magnitude ∧
    (Vector2.ClampMagnitude (Vector2.mk (inf true) (fin 0)) (fin 5)).magnitude = fin 0 ∧
    (fin (0 : ℝ) : JSNum) ≠ fin 5 ∧
    jsLe (Vector4.mk (fin 0) (fin 0) (fin 0) (fin 0)).magnitude (fin 5) ∧
    Vector4.ClampMagnitude (Vector4.mk (fin 0) (fin 0) (fin 0) (fin 0)) (fin 5) ≠
      Vector4.mk (fin 0) (fin 0) (fin 0) (fin 0) := by
  have hmag : (Vector2.mk (inf true) (fin 0)).magnitude = inf true := by
    simp [Vector2.magnitude]
  have hmag4 : (Vector4.mk (fin 0) (fin 0) (fin 0) (fin 0)).magnitude = fin 0 := by
    rw [Vector4.magnitude_fin4]
    norm_num
  refine ⟨by rw [hmag]; simp, ?_, by simp, by rw [hmag4]; norm_num, ?_⟩
  · have hclamp : Vector2.ClampMagnitude (Vector2.mk (inf true) (fin 0)) (fin 5) =
        Vector2.mk (fin 0) (fin 0) := by
      unfold Vector2.ClampMagnitude
      rw [hmag]
      simp only [if_pos (show jsLt (fin (5 : ℝ)) (inf true) from by simp)]
      ext <;> simp [Vector2.make]
    rw [hclamp, Vector2.magnitude_fin2]
    norm_num
  · intro h
    have hw := congrArg Vector4.w h
    have hcl : (Vector4.ClampMagnitude (Vector4.mk (fin 0) (fin 0) (fin 0) (fin 0))
        (fin 5)).w = fin 1 := by
      unfold Vector4.ClampMagnitude
      rw [hmag4]
      simp only [if_neg (show ¬ jsLt (fin (5 : ℝ)) (fin 0) from by norm_num)]
      show assign (fin 1) (jsMul (fin 0) (fin 1)) = fin 1
      norm_num [assign_one_fin]
    rw [hcl] at hw
    have : (1 : ℝ) = 0 := by injection hw
    norm_num at this

/-- C7 (amended): per type, (i) when `magnitude <= maxLength` (IEEE
comparison, so NaN components are excluded), `ClampMagnitude` returns a
new instance with the same component values — for Vector4 this
additionally requires `w ≠ 0`, else the copied `w` reverts to the
default 1; (ii) for finite vectors and `0 ≤ maxLength < magnitude`
(Vector4: `0 < maxLength` and `w ≠ 0`), the result's magnitude is
exactly `maxLength` in exact arithmetic; (iii) a negative `maxLength`
with a positive-magnitude vector takes the scale-down branch and returns
the vector multiplied by the negative ratio `maxLength / magnitude`,
flipping its direction. -/
theorem c7_clampmagnitude_amended :
    (∀ (v : Vector2) (m : JSNum), jsLe v.magnitude m → Vector2.ClampMagnitude v m = v) ∧
    (∀ (v : Vector3) (m : JSNum), jsLe v.magnitude m → Vector3.ClampMagnitude v m = v) ∧
    (∀ (v : Vector4) (m : JSNum), jsLe v.magnitude m → v.w ≠ fin 0 →
      Vector4.ClampMagnitude v m = v) ∧
    (∀ x y m : ℝ, 0 ≤ m → jsLt (fin m) (Vector2.mk (fin x) (fin y)).magnitude →
      (Vector2.ClampMagnitude (Vector2.mk (fin x) (fin y)) (fin m)).magnitude = fin m) ∧
    (∀ x y z m : ℝ, 0 ≤ m →
      jsLt (fin m) (Vector3.mk (fin x) (fin y) (fin z)).magnitude →
      (Vector3.ClampMagnitude (Vector3.mk (fin x) (fin y) (fin z)) (fin m)).magnitude =
        fin m) ∧
    (∀ x y z w m : ℝ, 0 < m → w ≠ 0 →
      jsLt (fin m) (Vector4.mk (fin x) (fin y) (fin z) (fin w)).magnitude →
      (Vector4.ClampMagnitude (Vector4.mk (fin x) (fin y) (fin z) (fin w))
        (fin m)).magnitude = fin m) ∧
    (∀ (v : Vector2) (mq M : ℝ), v.magnitude = fin M → 0 < M → mq < 0 →
      Vector2.ClampMagnitude v (fin mq) = Vector2.Multiply v (Sum.inl (fin (mq / M))) ∧
      mq / M < 0) ∧
    (∀ (v : Vector3) (mq M : ℝ), v.magnitude = fin M → 0 < M → mq < 0 →
      Vector3.ClampMagnitude v (fin mq) = Vector3.Multiply v (Sum.inl (fin (mq / M))) ∧
      mq / M < 0) ∧
    (∀ (v : Vector4) (mq M : ℝ), v.magnitude = fin M → 0 < M → mq < 0 →
      Vector4.ClampMagnitude v (fin mq) = Vector4.Multiply v (Sum.inl (fin (mq / M))) ∧
      mq / M < 0) := by
  refine ⟨?_, ?_, ?_, ?_, ?_, ?_, ?_, ?_, ?_⟩
  · intro v m h
    have hmagne : v.magnitude ≠ nan := by
      intro hn
      rw [hn] at h
      exact jsLe_nan_left m h
    have hx : v.x ≠ nan := fun hn => hmagne (Vector2.magnitude_nan_x2 hn)
    have hy : v.y ≠ nan := fun hn => hmagne (Vector2.magnitude_nan_y2 hn)
    have hnlt := jsLe_not_jsLt h
    unfold Vector2.ClampMagnitude
    simp only [if_neg hnlt]
    ext
    · exact assign_mul_one hx
    · exact assign_mul_one hy
  · intro v m h
    have hmagne : v.magnitude ≠ nan := by
      intro hn
      rw [hn] at h
      exact jsLe_nan_left m h
    have hx : v.x ≠ nan := fun hn => hmagne (Vector3.magnitude_nan_x3 hn)
    have hy : v.y ≠ nan := fun hn => hmagne (Vector3.magnitude_nan_y3 hn)
    have hz : v.z ≠ nan := fun hn => hmagne (Vector3.magnitude_nan_z3 hn)
    have hnlt := jsLe_not_jsLt h
    unfold Vector3.ClampMagnitude
    simp only [if_neg hnlt]
    ext
    · exact assign_mul_one hx
    · exact assign_mul_one hy
    · exact assign_mul_one hz
  · intro v m h hw0
    have hmagne : v.magnitude ≠ nan := by
      intro hn
      rw [hn] at h
      exact jsLe_nan_left m h
    have hx : v.x ≠ nan := fun hn => hmagne (Vector4.magnitude_nan_x4 hn)
    have hy : v.y ≠ nan := fun hn => hmagne (Vector4.magnitude_nan_y4 hn)
    have hz : v.z ≠ nan := fun hn => hmagne (Vector4.magnitude_nan_z4 hn)
    have hw : v.w ≠ nan := fun hn => hmagne (Vector4.magnitude_nan_w hn)
    have hnlt := jsLe_not_jsLt h
    unfold Vector4.ClampMagnitude
    simp only [if_neg hnlt]
    ext
    · exact assign_mul_one hx
    · exact assign_mul_one hy
    · exact assign_mul_one hz
    · exact assign_one_mul_one hw hw0
  · intro x y m hm h
    rw [Vector2.magnitude_fin2] at h
    have hlt : m < Real.sqrt (x * x + y * y) := by simpa using h
    have hM : 0 < Real.sqrt (x * x + y * y) := lt_of_le_of_lt hm hlt
    have hk : 0 ≤ m / Real.sqrt (x * x + y * y) := div_nonneg hm hM.le
    unfold Vector2.ClampMagnitude
    rw [Vector2.magnitude_fin2]
    simp only [if_pos (show jsLt (fin m) (fin (Real.sqrt (x * x + y * y))) from
      by simpa using hlt)]
    rw [jsDiv_fin_fin, if_neg hM.ne']
    show Vector2.magnitude
      ⟨assign (fin 0) (jsMul (fin x) (fin (m / Real.sqrt (x * x + y * y)))),
       assign (fin 0) (jsMul (fin y) (fin (m / Real.sqrt (x * x + y * y))))⟩ = fin m
    simp only [jsMul_fin_fin, assign_zero_fin]
    rw [Vector2.magnitude_fin2]
    rw [show x * (m / Real.sqrt (x * x + y * y)) * (x * (m / Real.sqrt (x * x + y * y))) +
        y * (m / Real.sqrt (x * x + y * y)) * (y * (m / Real.sqrt (x * x + y * y))) =
        m / Real.sqrt (x * x + y * y) * (m / Real.sqrt (x * x + y * y)) *
          (x * x + y * y) from by ring]
    rw [Real.sqrt_mul (mul_self_nonneg _), Real.sqrt_mul_self hk,
      div_mul_cancel₀ m hM.ne']
  · intro x y z m hm h
    rw [Vector3.magnitude_fin3] at h
    have hlt : m < Real.sqrt (x * x + y * y + z * z) := by simpa using h
    have hM : 0 < Real.sqrt (x * x + y * y + z * z) := lt_of_le_of_lt hm hlt
    have hk : 0 ≤ m / Real.sqrt (x * x + y * y + z * z) := div_nonneg hm hM.le
    unfold Vector3.ClampMagnitude
    rw [Vector3.magnitude_fin3]
    simp only [if_pos (show jsLt (fin m) (fin (Real.sqrt (x * x + y * y + z * z))) from
      by simpa using hlt)]
    rw [jsDiv_fin_fin, if_neg hM.ne']
    show Vector3.magnitude
      ⟨assign (fin 0) (jsMul (fin x) (fin (m / Real.sqrt (x * x + y * y + z * z)))),
       assign (fin 0) (jsMul (fin y) (fin (m / Real.sqrt (x * x + y * y + z * z)))),
       assign (fin 0) (jsMul (fin z) (fin (m / Real.sqrt (x * x + y * y + z * z))))⟩ = fin m
    simp only [jsMul_fin_fin, assign_zero_fin]
    rw [Vector3.magnitude_fin3]
    rw [show x * (m / Real.sqrt (x * x + y * y + z * z)) *
          (x * (m / Real.sqrt (x * x + y * y + z * z))) +
        y * (m / Real.sqrt (x * x + y * y + z * z)) *
          (y * (m / Real.sqrt (x * x + y * y + z * z))) +
        z * (m / Real.sqrt (x * x + y * y + z * z)) *
          (z * (m / Real.sqrt (x * x + y * y + z * z))) =
        m / Real.sqrt (x * x + y * y + z * z) * (m / Real.sqrt (x * x + y * y + z * z)) *
          (x * x + y * y + z * z) from by ring]
    rw [Real.sqrt_mul (mul_self_nonneg _), Real.sqrt_mul_self hk,
      div_mul_cancel₀ m hM.ne']
  · intro x y z w m hm hw h
    rw [Vector4.magnitude_fin4] at h
    have hlt : m < Real.sqrt (x * x + y * y + z * z + w * w) := by simpa using h
    have hM : 0 < Real.sqrt (x * x + y * y + z * z + w * w) := lt_trans hm hlt
    have hk : 0 < m / Real.sqrt (x * x + y * y + z * z + w * w) := div_pos hm hM
    have hwk : w * (m / Real.sqrt (x * x + y * y + z * z + w * w)) ≠ 0 :=
      mul_ne_zero hw hk.ne'
    unfold Vector4.ClampMagnitude
    rw [Vector4.magnitude_fin4]
    simp only [if_pos (show jsLt (fin m)
      (fin (Real.sqrt (x * x + y * y + z * z + w * w))) from by simpa using hlt)]
    rw [jsDiv_fin_fin, if_neg hM.ne']
    show Vector4.magnitude
      ⟨assign (fin 0) (jsMul (fin x) (fin (m / Real.sqrt (x * x + y * y + z * z + w * w)))),
       assign (fin 0) (jsMul (fin y) (fin (m / Real.sqrt (x * x + y * y + z * z + w * w)))),
       assign (fin 0) (jsMul (fin z) (fin (m / Real.sqrt (x * x + y * y + z * z + w * w)))),
       assign (fin 1) (jsMul (fin w)
         (fin (m / Real.sqrt (x * x + y * y + z * z + w * w))))⟩ = fin m
    simp only [jsMul_fin_fin, assign_zero_fin]
    rw [show assign (fin 1)
        (fin (w * (m / Real.sqrt (x * x + y * y + z * z + w * w)))) =
        fin (w * (m / Real.sqrt (x * x + y * y + z * z + w * w))) from
      assign_one_fin_ne _ hwk]
    rw [Vector4.magnitude_fin4]
    rw [show x * (m / Real.sqrt (x * x + y * y + z * z + w * w)) *
          (x * (m / Real.sqrt (x * x + y * y + z * z + w * w))) +
        y * (m / Real.sqrt (x * x + y * y + z * z + w * w)) *
          (y * (m / Real.sqrt (x * x + y * y + z * z + w * w))) +
        z * (m / Real.sqrt (x * x + y * y + z * z + w * w)) *
          (z * (m / Real.sqrt (x * x + y * y + z * z + w * w))) +
        w * (m / Real.sqrt (x * x + y * y + z * z + w * w)) *
          (w * (m / Real.sqrt (x * x + y * y + z * z + w * w))) =
        m / Real.sqrt (x * x + y * y + z * z + w * w) *
          (m / Real.sqrt (x * x + y * y + z * z + w * w)) *
          (x * x + y * y + z * z + w * w) from by ring]
    rw [Real.sqrt_mul (mul_self_nonneg _), Real.sqrt_mul_self hk.le,
      div_mul_cancel₀ m hM.ne']
  · intro v mq M hmag hM hneg
    refine ⟨?_, div_neg_of_neg_of_pos hneg hM⟩
    unfold Vector2.ClampMagnitude
    rw [hmag]
    simp only [if_pos (show jsLt (fin mq) (fin M) from by simpa using lt_trans hneg hM)]
    rw [jsDiv_fin_fin, if_neg hM.ne']
    rfl
  · intro v mq M hmag hM hneg
    refine ⟨?_, div_neg_of_neg_of_pos hneg hM⟩
    unfold Vector3.ClampMagnitude
    rw [hmag]
    simp only [if_pos (show jsLt (fin mq) (fin M) from by simpa using lt_trans hneg hM)]
    rw [jsDiv_fin_fin, if_neg hM.ne']
    rfl
  · intro v mq M hmag hM hneg
    refine ⟨?_, div_neg_of_neg_of_pos hneg hM⟩
    unfold Vector4.ClampMagnitude
    rw [hmag]
    simp only [if_pos (show jsLt (fin mq) (fin M) from by simpa using lt_trans hneg hM)]
    rw [jsDiv_fin_fin, if_neg hM.ne']
    rfl

/-- C7 witness: the amended theorem at the concrete vector (3, 4) with
`maxLength = 5` (no clamping) and `maxLength = 1` (scaled to magnitude
1). -/
theorem c7_clampmagnitude_amended_witness :
    Vector2.ClampMagnitude (Vector2.mk (fin 3) (fin 4)) (fin 5) =
      Vector2.mk (fin 3) (fin 4) ∧
    (Vector2.ClampMagnitude (Vector2.mk (fin 3) (fin 4)) (fin 1)).magnitude = fin 1 := by
  have h5 : (Vector2.mk (fin 3) (fin 4)).magnitude = fin 5 := by
    rw [Vector2.magnitude_fin2, show (3 * 3 + 4 * 4 : ℝ) = 5 ^ 2 by norm_num,
      Real.sqrt_sq (by norm_num)]
  constructor
  · refine c7_clampmagnitude_amended.1 _ _ ?_
    rw [h5]
    norm_num
  · refine c7_clampmagnitude_amended.2.2.2.1 3 4 1 (by norm_num) ?_
    rw [h5]
    norm_num

end VecLib

end
